import Mathlib

/-!
# Raytracer: a shallow embedding of `raytracer.cc`

The rendering pipeline of `raytracer.cc` (nearest-hit search, light visibility,
Lambertian shading and the depth-bounded recursive tracer), its camera and its
framebuffer with the plain-text image export are embedded as pure Lean
functions.

Conventions of the embedding:

* `float` values are exact rationals (`ℚ`); the literals `6e-2f`, `0.9f`, `0.1f`
  and `1.0f` are `6/100`, `9/10`, `1/10` and `1`. The section
  "Single-precision evaluation" repeats the camera, the shading and the tracer
  with every operation rounded to single precision; the statements that hold
  in exact arithmetic only say so. NaN and infinities are outside the
  embedding.
* The globals `scene` and `lightsources` are explicit arguments, so every
  statement ranges over all scenes and all light registries.
* `unsigned int` values are natural numbers; products and sums computed in
  `unsigned int` are reduced modulo `2^32`.
* The file written by `Screen::save_to_file` is the list of its characters.
* `geometry.h` is not part of the sources. Its vector algebra is written out
  component-wise; the operations that the sources call but whose bodies are
  not available (`Sphere3df::intersects`, `Vector3df::normalize`,
  `Vector3df::get_reflective`) are the fields of a `Geometry` argument, so
  every statement holds for any implementation of them.
-/

namespace Raytracer

/-! ## Geometry library (`geometry.h`) -/

/-- Modelled from the spec: the three-component vector type `Vector3df` of the
geometry library (`geometry.h`, absent from the sources), with exact rational
components. -/
structure Vector3df where
  x : ℚ
  y : ℚ
  z : ℚ
deriving DecidableEq

namespace Vector3df

/-- Modelled from the spec: component-wise vector addition (`operator+` of
`geometry.h`). -/
def add (a b : Vector3df) : Vector3df :=
  Vector3df.mk (a.x + b.x) (a.y + b.y) (a.z + b.z)

/-- Modelled from the spec: component-wise vector subtraction (`operator-` of
`geometry.h`). -/
def sub (a b : Vector3df) : Vector3df :=
  Vector3df.mk (a.x - b.x) (a.y - b.y) (a.z - b.z)

/-- Modelled from the spec: scalar multiplication `s * v` (`operator*` of
`geometry.h` with a scalar on the left). -/
def smul (s : ℚ) (v : Vector3df) : Vector3df :=
  Vector3df.mk (s * v.x) (s * v.y) (s * v.z)

/-- Modelled from the spec: dot product `v * w` (`operator*` of `geometry.h`
on two vectors). -/
def dot (a b : Vector3df) : ℚ :=
  a.x * b.x + a.y * b.y + a.z * b.z

instance : Add Vector3df := ⟨add⟩
instance : Sub Vector3df := ⟨sub⟩
instance : HMul ℚ Vector3df Vector3df := ⟨smul⟩
instance : HMul Vector3df Vector3df ℚ := ⟨dot⟩

end Vector3df

/-- Modelled from the spec: the ray type `Ray3df` of `geometry.h`, an origin
and a direction. -/
structure Ray3df where
  origin : Vector3df
  direction : Vector3df
deriving DecidableEq

/-- Modelled from the spec: the sphere type `Sphere3df` of `geometry.h`, a
centre and a radius. -/
structure Sphere3df where
  center : Vector3df
  radius : ℚ
deriving DecidableEq

/-- Modelled from the spec: the fields of `Intersection_Context<float, 3>` of
`geometry.h` that `raytracer.cc` reads: the ray parameter `t`, the
intersection point and the surface normal. -/
structure Intersection_Context where
  t : ℚ
  intersection : Vector3df
  normal : Vector3df
deriving DecidableEq

/-- Modelled from the spec: the operations of the geometry library whose bodies
are not in the sources. `intersects s ray` is `Sphere3df::intersects(ray, context)`:
`none` when the call returns `false`, `some context` when it returns `true`
and has filled `context`. `normalize v` is the value of `v` after
`v.normalize()`. `get_reflective d n` is `d.get_reflective(n)`. -/
structure Geometry where
  intersects : Sphere3df → Ray3df → Option Intersection_Context
  normalize : Vector3df → Vector3df
  get_reflective : Vector3df → Vector3df → Vector3df

/-- The constant `MAXFLOAT` of the C library: the largest finite
single-precision value, `2^128 - 2^104`. -/
def MAXFLOAT : ℚ := 340282346638528859811704183484516925440

/-! ## Colours, materials, objects -/

/-- The type `Color` is `Vector3df` (`typedef Vector3df Color`). -/
abbrev Color := Vector3df

/-- Colour constant `white`. -/
def white : Color := Vector3df.mk 1 1 1

/-- Colour constant `black`. -/
def black : Color := Vector3df.mk 0 0 0

/-- Colour constant `red`. -/
def red : Color := Vector3df.mk 1 0 0

/-- Colour constant `green`. -/
def green : Color := Vector3df.mk 0 1 0

/-- Colour constant `blue`. -/
def blue : Color := Vector3df.mk 0 0 1

/-- The fields of class `Material`. -/
structure Material where
  color : Color
  reflective : Bool
  k_diffuse : ℚ
  k_ambient : ℚ
deriving DecidableEq

/-- The constructor `Material(_color, _reflective, _k_diffuse)`: it stores its
arguments and sets `k_ambient = 1.0f - k_diffuse`. -/
def Material.create (_color : Color) (_reflective : Bool) (_k_diffuse : ℚ) : Material :=
  Material.mk _color _reflective _k_diffuse (1 - _k_diffuse)

/-- The fields of class `Object`: a material and a sphere. -/
structure Object where
  material : Material
  sphere : Sphere3df
deriving DecidableEq

/-- The struct `Hitcontext`: an object with the intersection context of a ray
on it. -/
structure Hitcontext where
  object : Object
  intersection_context : Intersection_Context
deriving DecidableEq

/-- The type `Lightsource` is `Vector3df` (`typedef Vector3df Lightsource`). -/
abbrev Lightsource := Vector3df

/-! ## Scene and nearest-hit search -/

/-- The class `Scene`: the ordered sequence of its objects. -/
structure Scene where
  objects : List Object

/-- One iteration of the loop of `Scene::find_nearest_object`, on the pair
`(nearest_context, nearest_distance)`. -/
def find_nearest_step (G : Geometry) (ray : Ray3df)
    (st : Option Hitcontext × ℚ) (object : Object) : Option Hitcontext × ℚ :=
  match G.intersects object.sphere ray with
  | some context =>
    if context.t < st.2 then (some (Hitcontext.mk object context), context.t) else st
  | none => st

/-- The method `Scene::find_nearest_object`: the loop over `objects` started
from `(std::nullopt, MAXFLOAT)`; the result is `nearest_context`. -/
def Scene.find_nearest_object (G : Geometry) (scene : Scene) (ray : Ray3df) :
    Option Hitcontext :=
  (scene.objects.foldl (find_nearest_step G ray) (none, MAXFLOAT)).1

/-! ## Light visibility -/

/-- One iteration of the loop of `find_light_sources`: `light` is appended to
`visible_lights` when the shadow ray hits nothing or its nearest hit has
`t > 1.0f`. -/
def find_light_sources_step (G : Geometry) (scene : Scene) (intersection_point : Vector3df)
    (visible_lights : List Lightsource) (light : Lightsource) : List Lightsource :=
  let light_direction := light - intersection_point
  let shadow_ray := Ray3df.mk intersection_point light_direction
  match scene.find_nearest_object G shadow_ray with
  | none => visible_lights ++ [light]
  | some shadow_context =>
    if shadow_context.intersection_context.t > 1 then visible_lights ++ [light]
    else visible_lights

/-- The function `find_light_sources`: the lights of the registry that are
visible from the intersection point moved out by `6e-2f` along the normal. -/
def find_light_sources (G : Geometry) (scene : Scene) (lightsources : List Lightsource)
    (context : Intersection_Context) : List Lightsource :=
  let intersection_point := context.intersection + ((6 / 100 : ℚ) * context.normal)
  lightsources.foldl (find_light_sources_step G scene intersection_point) []

/-! ## Lambertian shading -/

/-- The function `lambertian`. -/
def lambertian (G : Geometry) (scene : Scene) (lightsources : List Lightsource)
    (hitcontext : Hitcontext) : Color :=
  let object := hitcontext.object
  let intersection_context := hitcontext.intersection_context
  let visible_lights := find_light_sources G scene lightsources intersection_context
  let shading_factor := object.material.k_ambient
  let diffuse_factor := visible_lights.foldl
    (fun (diffuse_factor : ℚ) (light : Lightsource) =>
      let lightsource_normal := G.normalize (light - intersection_context.intersection)
      diffuse_factor + max 0 (intersection_context.normal * lightsource_normal)) 0
  let diffuse_factor :=
    diffuse_factor * (1 / (lightsources.length : ℚ) * object.material.k_diffuse)
  let shading_factor := shading_factor + diffuse_factor
  shading_factor * object.material.color

/-! ## Recursive tracer -/

/-- The function `tracin_them_rays`, by recursion on `max_depth`. -/
def tracin_them_rays (G : Geometry) (scene : Scene) (lightsources : List Lightsource) :
    Ray3df → Nat → Color
  | _, 0 => black
  | ray, max_depth + 1 =>
    match scene.find_nearest_object G ray with
    | none => black
    | some context_opt =>
      if context_opt.object.material.reflective then
        let context := context_opt.intersection_context
        let normal := context.normal
        let intersection := context.intersection + ((6 / 100 : ℚ) * normal)
        let reflective := Ray3df.mk intersection (G.get_reflective ray.direction normal)
        ((9 / 10 : ℚ) * tracin_them_rays G scene lightsources reflective max_depth)
          + ((1 / 10 : ℚ) * white)
      else lambertian G scene lightsources context_opt

/-! ## The scene and lights of `raytracer.cc` -/

/-- Material constant `matte_white`; the default `k_diffuse` is `0.9f`. -/
def matte_white : Material := Material.create white false (9 / 10)

/-- Material constant `reflective_white`. -/
def reflective_white : Material := Material.create white true (9 / 10)

/-- Material constant `matte_black`. -/
def matte_black : Material := Material.create black false (9 / 10)

/-- Material constant `matte_red`. -/
def matte_red : Material := Material.create red false (9 / 10)

/-- Material constant `matte_green`. -/
def matte_green : Material := Material.create green false (9 / 10)

/-- Material constant `matte_blue`. -/
def matte_blue : Material := Material.create blue false (9 / 10)

/-- Constant `big_offset`. -/
def big_offset : ℚ := 6376

/-- Back wall of the Cornell box. -/
def big_white_ball : Object :=
  Object.mk matte_white (Sphere3df.mk (Vector3df.mk 0 0 (-big_offset - 5)) 6371)

/-- Floor of the Cornell box. -/
def big_white_ball_b : Object :=
  Object.mk matte_white (Sphere3df.mk (Vector3df.mk 0 (-big_offset) 0) 6371)

/-- Ceiling of the Cornell box. -/
def big_white_ball_t : Object :=
  Object.mk matte_white (Sphere3df.mk (Vector3df.mk 0 big_offset 0) 6371)

/-- Left wall of the Cornell box. -/
def big_blue_ball : Object :=
  Object.mk matte_blue (Sphere3df.mk (Vector3df.mk (-big_offset) 0 0) 6371)

/-- Right wall of the Cornell box. -/
def big_red_ball : Object :=
  Object.mk matte_red (Sphere3df.mk (Vector3df.mk big_offset 0 0) 6371)

/-- Object constant `green_ball`. -/
def green_ball : Object :=
  Object.mk matte_green (Sphere3df.mk (Vector3df.mk 3 (-4) (-8)) 1)

/-- Object constant `reflective_ball`. -/
def reflective_ball : Object :=
  Object.mk reflective_white (Sphere3df.mk (Vector3df.mk (-1) (-37 / 10) (-7)) (13 / 10))

/-- The global `scene`. -/
def scene : Scene :=
  Scene.mk [big_white_ball, big_white_ball_b, big_white_ball_t, big_blue_ball, big_red_ball,
    green_ball, reflective_ball]

/-- Light constant `lightsource_1`. -/
def lightsource_1 : Lightsource := Vector3df.mk 3 (9 / 2) (-7)

/-- Light constant `lightsource_2`. -/
def lightsource_2 : Lightsource := Vector3df.mk (-3) (9 / 2) (-7)

/-- The global `lightsources`. -/
def lightsources : List Lightsource := [lightsource_1, lightsource_2]

/-! ## Specification-side definitions -/

/-- Loop invariant of `Scene::find_nearest_object` after the objects `seen`:
with no candidate the distance is still `MAXFLOAT` and every successful test
so far reported a `t` not below it; with a candidate, it is a tested object of
`seen`, the distance is its `t`, below `MAXFLOAT` and minimal so far. -/
def NearestInv (G : Geometry) (ray : Ray3df) (seen : List Object)
    (st : Option Hitcontext × ℚ) : Prop :=
  match st.1 with
  | none => st.2 = MAXFLOAT ∧
      ∀ o ∈ seen, ∀ c, G.intersects o.sphere ray = some c → MAXFLOAT ≤ c.t
  | some h => h.object ∈ seen ∧
      G.intersects h.object.sphere ray = some h.intersection_context ∧
      st.2 = h.intersection_context.t ∧ h.intersection_context.t < MAXFLOAT ∧
      ∀ o ∈ seen, ∀ c, G.intersects o.sphere ray = some c → h.intersection_context.t ≤ c.t

/-- Visibility test in the words of the specification (section 4.2): the
nearest hit of the shadow ray from `point` with direction `light - point` is
absent or has `t > 1`. -/
def shadow_ray_unobstructed (G : Geometry) (scene : Scene) (point : Vector3df)
    (light : Lightsource) : Bool :=
  match scene.find_nearest_object G (Ray3df.mk point (light - point)) with
  | none => true
  | some hit => decide (1 < hit.intersection_context.t)

/-- Aggregate diffuse term in the words of the specification (section 4.3):
the sum over `lights` of `max(0, normal . u)` with `u` the normalised vector
from `point` to the light. -/
def diffuse_sum (G : Geometry) (point normal : Vector3df) (lights : List Lightsource) : ℚ :=
  (lights.map (fun light => max 0 (normal * G.normalize (light - point)))).sum

/-- A colour is valid when each component lies in `[0, 1]`. -/
def Color.valid (c : Color) : Prop :=
  (0 ≤ c.x ∧ c.x ≤ 1) ∧ (0 ≤ c.y ∧ c.y ≤ 1) ∧ (0 ≤ c.z ∧ c.z ≤ 1)

/-! ## A concrete geometry on the z axis

The statements below hold for every `Geometry`. To evaluate them on concrete
inputs, `axisGeometry` implements the geometry operations exactly, in rational
arithmetic, for configurations on the z axis. -/

/-- Ray-sphere test for a ray that runs along the z axis. For a sphere centred
on the axis the two crossings are `(center.z -+ radius - origin.z) / direction.z`
and the result is the smaller positive one, with the outward unit normal. A
sphere centred off the axis is reported as missed, which is exact when the
sphere does not reach the axis; so is every ray off the axis. -/
def axisIntersects (s : Sphere3df) (ray : Ray3df) : Option Intersection_Context :=
  if ray.origin.x = 0 ∧ ray.origin.y = 0 ∧ ray.direction.x = 0 ∧ ray.direction.y = 0
      ∧ ray.direction.z ≠ 0 ∧ s.center.x = 0 ∧ s.center.y = 0 ∧ 0 < s.radius then
    let t1 := (s.center.z - s.radius - ray.origin.z) / ray.direction.z
    let t2 := (s.center.z + s.radius - ray.origin.z) / ray.direction.z
    let t := if 0 < min t1 t2 then min t1 t2 else max t1 t2
    if 0 < t then
      let p := ray.origin + (t * ray.direction)
      some (Intersection_Context.mk t p ((1 / s.radius) * (p - s.center)))
    else none
  else none

/-- Normalisation of a vector on the z axis (division by `|z|`); other vectors
are returned unchanged. -/
def axisNormalize (v : Vector3df) : Vector3df :=
  if v.x = 0 ∧ v.y = 0 ∧ v.z ≠ 0 then (1 / |v.z|) * v else v

/-- Mirror reflection of `d` about the unit normal `n`: `d - 2 (d . n) n`. -/
def mirror (d n : Vector3df) : Vector3df :=
  d - ((2 * (d * n) : ℚ) * n)

/-- The geometry operations on the z axis. -/
def axisGeometry : Geometry := Geometry.mk axisIntersects axisNormalize mirror

/-- The ray from the origin along the view axis `-z`. -/
def viewAxisRay : Ray3df := Ray3df.mk (Vector3df.mk 0 0 0) (Vector3df.mk 0 0 (-1))

/-- The ray from the origin along `+z`, away from every object of `scene`. -/
def awayRay : Ray3df := Ray3df.mk (Vector3df.mk 0 0 0) (Vector3df.mk 0 0 1)

/-- The hit of `viewAxisRay` on the back wall of `scene`, at distance 10. -/
def backWallHit : Hitcontext :=
  Hitcontext.mk big_white_ball
    (Intersection_Context.mk 10 (Vector3df.mk 0 0 (-10)) (Vector3df.mk 0 0 1))

/-- A scene of one unit sphere on the z axis at distance `2^60`. -/
def farScene : Scene :=
  Scene.mk [Object.mk matte_white
    (Sphere3df.mk (Vector3df.mk 0 0 (-1152921504606846976)) 1)]

/-- A ray from the origin along `-z` whose direction has length `2^-70`. -/
def slowRay : Ray3df :=
  Ray3df.mk (Vector3df.mk 0 0 0) (Vector3df.mk 0 0 (-1 / 1180591620717411303424))

/-- A surface point at the origin with normal `+z`. -/
def originContext : Intersection_Context :=
  Intersection_Context.mk 1 (Vector3df.mk 0 0 0) (Vector3df.mk 0 0 1)

/-- A light on the z axis, straight above `originContext`. -/
def zenithLight : Lightsource := Vector3df.mk 0 0 10

/-- A scene with a sphere between `originContext` and `zenithLight`, followed
by a sphere beyond the light. -/
def occludedScene : Scene :=
  Scene.mk [Object.mk matte_red (Sphere3df.mk (Vector3df.mk 0 0 20) 1),
    Object.mk matte_green (Sphere3df.mk (Vector3df.mk 0 0 5) 1)]

/-- A scene whose only sphere lies below `originContext`, away from the
light. -/
def clearScene : Scene :=
  Scene.mk [Object.mk matte_red (Sphere3df.mk (Vector3df.mk 0 0 (-5)) 1)]

/-- Two mirrors facing each other on the z axis. -/
def mirrorScene : Scene :=
  Scene.mk [Object.mk reflective_white (Sphere3df.mk (Vector3df.mk 0 0 (-5)) 1),
    Object.mk reflective_white (Sphere3df.mk (Vector3df.mk 0 0 5) 1)]

/-- A single mirror on the view axis with nothing in front of it. -/
def loneMirrorScene : Scene :=
  Scene.mk [Object.mk reflective_white (Sphere3df.mk (Vector3df.mk 0 0 (-5)) 1)]

/-- The hit of `viewAxisRay` on the mirror of `loneMirrorScene`. -/
def loneMirrorHit : Hitcontext :=
  Hitcontext.mk (Object.mk reflective_white (Sphere3df.mk (Vector3df.mk 0 0 (-5)) 1))
    (Intersection_Context.mk 4 (Vector3df.mk 0 0 (-4)) (Vector3df.mk 0 0 1))

/-! ## Screen -/

/-- The number of values of the type `unsigned int` (32 bits); arithmetic on
`unsigned int` is taken modulo this number. -/
def UINT_RANGE : Nat := 4294967296

/-- The fields of class `Screen`. -/
structure Screen where
  width : Nat
  height : Nat
  pixels : List Color

/-- The constructor `Screen(width, height)`: the loop pushes black
`width * height` times, the product being computed in `unsigned int`. -/
def Screen.create (width height : Nat) : Screen :=
  Screen.mk width height (List.replicate ((width * height) % UINT_RANGE) black)

/-- The method `Screen::get_width`. -/
def Screen.get_width (s : Screen) : Nat := s.width

/-- The method `Screen::get_height`. -/
def Screen.get_height (s : Screen) : Nat := s.height

/-- The method `Screen::get_aspect_ratio`: `float(width) / height`. -/
def Screen.get_aspect_ratio (s : Screen) : ℚ := (s.width : ℚ) / (s.height : ℚ)

/-- The method `Screen::set_pixel`: the index `y * width + x` is computed in
`unsigned int`; the result is `none` when the index is outside `pixels`, where
the assignment `pixels[index] = color` has no defined behaviour. -/
def Screen.set_pixel (s : Screen) (x y : Nat) (color : Color) : Option Screen :=
  let index := (y * s.width + x) % UINT_RANGE
  if index < s.pixels.length then
    some (Screen.mk s.width s.height (s.pixels.set index color))
  else none

/-- Conversion of a floating-point value to `unsigned int`, as in
`unsigned int red_channel = color[0] * 255.999`: the fractional part is
discarded (truncation toward zero). Values whose truncation is not
representable have no defined conversion; here negative ones give `0`. -/
def to_unsigned (v : ℚ) : Nat := (Int.tdiv v.num v.den).toNat

/-- The channel value that `Screen::save_to_file` writes for a colour
component: the component times `255.999`, converted to `unsigned int`. -/
def channel (component : ℚ) : Nat := to_unsigned (component * (255999 / 1000))

/-! ## Camera -/

/-- The fields of class `Camera`. -/
structure Camera where
  screen_ptr : Screen
  focal_length : ℚ
  viewport_height : ℚ
  viewport_width : ℚ
  center : Vector3df
  viewport_u : Vector3df
  viewport_v : Vector3df
  pixel_delta_u : Vector3df
  pixel_delta_v : Vector3df
  viewport_dist : Vector3df
  viewport_upper_left : Vector3df
  pixel00_loc : Vector3df

/-- The constructor `Camera(screen, _focal_length, _viewport_height)`. The
members are initialised in declaration order, so `viewport_dist` is
`{0, 0, focal_length}` with `focal_length` already set to `_focal_length`. -/
def Camera.create (screen : Screen) (_focal_length _viewport_height : ℚ) : Camera :=
  let focal_length := _focal_length
  let viewport_height := _viewport_height
  let center := Vector3df.mk 0 0 0
  let viewport_dist := Vector3df.mk 0 0 focal_length
  let viewport_width := viewport_height * screen.get_aspect_ratio
  let viewport_u := Vector3df.mk viewport_width 0 0
  let viewport_v := Vector3df.mk 0 (-viewport_height) 0
  let pixel_delta_u := ((1 : ℚ) / (screen.get_width : ℚ)) * viewport_u
  let pixel_delta_v := ((1 : ℚ) / (screen.get_height : ℚ)) * viewport_v
  let viewport_upper_left :=
    center - viewport_dist - ((1 / 2 : ℚ) * viewport_u) - ((1 / 2 : ℚ) * viewport_v)
  let pixel00_loc := viewport_upper_left + ((1 / 2 : ℚ) * (pixel_delta_u + pixel_delta_v))
  Camera.mk screen focal_length viewport_height viewport_width center viewport_u viewport_v
    pixel_delta_u pixel_delta_v viewport_dist viewport_upper_left pixel00_loc

/-- The method `Camera::get_ray`. -/
def Camera.get_ray (cam : Camera) (x y : Nat) : Ray3df :=
  let pixelxy_loc :=
    cam.pixel00_loc + ((x : ℚ) * cam.pixel_delta_u) + ((y : ℚ) * cam.pixel_delta_v)
  Ray3df.mk cam.center pixelxy_loc

/-- Invariant of a `Screen` established by its constructor: `pixels` has
`width * height` entries, the product taken in `unsigned int`. -/
def Screen.sized (s : Screen) : Prop :=
  s.pixels.length = (s.width * s.height) % UINT_RANGE

/-- Two unit spheres at distance `2^60` on the z axis, at the same place. -/
def farTieScene : Scene :=
  Scene.mk [Object.mk matte_white
      (Sphere3df.mk (Vector3df.mk 0 0 (-1152921504606846976)) 1),
    Object.mk matte_red
      (Sphere3df.mk (Vector3df.mk 0 0 (-1152921504606846976)) 1)]

/-- Two unit spheres at the same place on the view axis, the white one first. -/
def tieScene : Scene :=
  Scene.mk [Object.mk matte_white (Sphere3df.mk (Vector3df.mk 0 0 (-5)) 1),
    Object.mk matte_red (Sphere3df.mk (Vector3df.mk 0 0 (-5)) 1)]

/-- A sphere test on the z axis that does not look at the sign of `t`: it
reports the first crossing of the whole line through the ray, also when that
crossing lies behind the ray origin. -/
def axisLineIntersects (s : Sphere3df) (ray : Ray3df) : Option Intersection_Context :=
  if ray.origin.x = 0 ∧ ray.origin.y = 0 ∧ ray.direction.x = 0 ∧ ray.direction.y = 0
      ∧ ray.direction.z ≠ 0 ∧ s.center.x = 0 ∧ s.center.y = 0 ∧ 0 < s.radius then
    let t1 := (s.center.z - s.radius - ray.origin.z) / ray.direction.z
    let t2 := (s.center.z + s.radius - ray.origin.z) / ray.direction.z
    let t := min t1 t2
    let p := ray.origin + (t * ray.direction)
    some (Intersection_Context.mk t p ((1 / s.radius) * (p - s.center)))
  else none

/-- The geometry operations on the z axis with the sign-blind sphere test. -/
def axisLineGeometry : Geometry := Geometry.mk axisLineIntersects axisNormalize mirror

/-- A green sphere in front of the origin (towards `-z`) and a red sphere
behind it. -/
def behindScene : Scene :=
  Scene.mk [Object.mk matte_green (Sphere3df.mk (Vector3df.mk 0 0 (-5)) 1),
    Object.mk matte_red (Sphere3df.mk (Vector3df.mk 0 0 5) 1)]

/-- The value of `diffuse_factor` in `lambertian` after the scaling by
`1.0f / lightsources.size() * k_diffuse`, when the lights found visible are
`visible`. -/
def normalised_diffuse (G : Geometry) (lightsources : List Lightsource)
    (hitcontext : Hitcontext) (visible : List Lightsource) : ℚ :=
  diffuse_sum G hitcontext.intersection_context.intersection
      hitcontext.intersection_context.normal visible
    * (1 / (lightsources.length : ℚ) * hitcontext.object.material.k_diffuse)

/-- A matte sphere in front of the origin and a mirror behind it, both on the
z axis. -/
def mixedScene : Scene :=
  Scene.mk [Object.mk matte_green (Sphere3df.mk (Vector3df.mk 0 0 (-5)) 1),
    Object.mk reflective_white (Sphere3df.mk (Vector3df.mk 0 0 5) 1)]

/-- The hit of `viewAxisRay` on the green sphere of `mixedScene`. -/
def greenHit : Hitcontext :=
  Hitcontext.mk (Object.mk matte_green (Sphere3df.mk (Vector3df.mk 0 0 (-5)) 1))
    (Intersection_Context.mk 4 (Vector3df.mk 0 0 (-4)) (Vector3df.mk 0 0 1))

/-! ## Image export -/

/-- The character of a decimal digit. -/
def digit_char (d : Nat) : Char := Char.ofNat (48 + d)

/-- The characters that `file << n` writes for an `unsigned int`: the decimal
digits of `n`, most significant first, without leading zeros, and `0` for
zero. -/
def decimal (n : Nat) : List Char :=
  if n = 0 then ['0'] else (Nat.digits 10 n).reverse.map digit_char

/-- The loop of `Screen::save_to_file` from index `i` on: a line break before
every pixel whose index is a multiple of `width`, then the three channels,
each followed by a blank. -/
def save_pixels (width : Nat) : Nat → List Color → List Char
  | _, [] => []
  | i, color :: rest =>
    (if i % width = 0 then ['\n'] else []) ++
      (decimal (channel color.x) ++ ' ' :: (decimal (channel color.y) ++ ' ' ::
        (decimal (channel color.z) ++ ' ' :: save_pixels width (i + 1) rest)))

/-- The method `Screen::save_to_file`, for a file that could be opened: the
text written to it. -/
def Screen.save_to_file (s : Screen) : List Char :=
  ['P', '3', '\n'] ++ (decimal s.width ++ ' ' :: (decimal s.height ++ '\n' ::
    (['2', '5', '5'] ++ save_pixels s.width 0 s.pixels)))

/-- Whitespace of the plain-text image format: blank and line break. -/
def is_space (c : Char) : Bool := c = ' ' ∨ c = '\n'

/-- Splitting a text on whitespace, with the token under construction `cur`. -/
def split_ws_aux : List Char → List Char → List (List Char)
  | cur, [] => if cur = [] then [] else [cur]
  | cur, c :: cs =>
    if is_space c = true then
      (if cur = [] then split_ws_aux [] cs else cur :: split_ws_aux [] cs)
    else split_ws_aux (cur ++ [c]) cs

/-- The whitespace-separated tokens of a text. -/
def split_ws (text : List Char) : List (List Char) := split_ws_aux [] text

/-- The value of a decimal digit character. -/
def digit_value (c : Char) : Nat := c.toNat - 48

/-- Reading a decimal number: `none` for the empty token and for a token with
a character that is not a digit. -/
def parse_decimal (token : List Char) : Option Nat :=
  if token ≠ [] ∧ token.all (fun c => decide (48 ≤ c.toNat ∧ c.toNat ≤ 57)) = true then
    some (token.foldl (fun acc c => 10 * acc + digit_value c) 0)
  else none

/-- The 8-bit triple written for a colour. -/
def quantise (color : Color) : Nat × Nat × Nat :=
  (channel color.x, channel color.y, channel color.z)

/-- The three tokens written for a colour. -/
def triple_tokens (color : Color) : List (List Char) :=
  [decimal (channel color.x), decimal (channel color.y), decimal (channel color.z)]

/-- Reading pixel triples from a list of tokens. -/
def parse_triples : List (List Char) → Option (List (Nat × Nat × Nat))
  | [] => some []
  | r :: g :: b :: rest =>
    match parse_decimal r, parse_decimal g, parse_decimal b, parse_triples rest with
    | some r, some g, some b, some ps => some ((r, g, b) :: ps)
    | _, _, _, _ => none
  | _ => none

/-- A parsed plain-text image. -/
structure PPMImage where
  width : Nat
  height : Nat
  maxval : Nat
  pixels : List (Nat × Nat × Nat)
deriving DecidableEq

/-- Reading a plain-text image: the token `P3`, the width, the height, the
maximal value, then the pixel triples. -/
def parse_ppm (text : List Char) : Option PPMImage :=
  match split_ws text with
  | magic :: w :: h :: m :: rest =>
    if magic = ['P', '3'] then
      match parse_decimal w, parse_decimal h, parse_decimal m, parse_triples rest with
      | some w, some h, some m, some ps => some (PPMImage.mk w h m ps)
      | _, _, _, _ => none
    else none
  | _ => none

/-- A framebuffer of 2 by 1 pixels holding white and `(1/2, 0, 1)`. -/
def sampleScreen : Screen :=
  Screen.mk 2 1 [white, Vector3df.mk (1 / 2) 0 1]

/-! ## Single-precision evaluation

The definitions above compute in exact arithmetic. The definitions of this
section repeat the camera, the shading and the tracer with every `float`
operation of `raytracer.cc` rounded to single precision (round to nearest,
ties to even, 24 significant bits, exponents from `-126` on), each operation
evaluated in single precision as written, without fused operations. Overflow to
infinity and NaN are outside the embedding. -/

/-- The power `2^k` for an integer `k`. -/
def pow2 (k : ℤ) : ℚ :=
  if 0 ≤ k then ((2 ^ k.toNat : ℕ) : ℚ) else 1 / ((2 ^ (-k).toNat : ℕ) : ℚ)

/-- The number of halvings that take `n` below `2`, with at most `fuel`
steps. -/
def halvings : Nat → Nat → Nat
  | 0, _ => 0
  | fuel + 1, n => if n < 2 then 0 else halvings fuel (n / 2) + 1

/-- The binary exponent of a positive natural number `n`: the `e` with
`2^e <= n < 2^(e+1)`. -/
def nat_log2 (n : Nat) : Nat := halvings n n

/-- The binary exponent of a positive rational `a`: the integer `e` with
`2^e <= a < 2^(e+1)`. -/
def ilog2 (a : ℚ) : ℤ :=
  let k : ℤ := (nat_log2 a.num.natAbs : ℤ) - (nat_log2 a.den : ℤ)
  if pow2 k ≤ a then k else k - 1

/-- Rounding to the nearest integer, a tie going to the even one. -/
def round_half_even (y : ℚ) : ℤ :=
  let n := ⌊y⌋
  if y - n < 1 / 2 then n
  else if 1 / 2 < y - n then n + 1
  else if n % 2 = 0 then n else n + 1

/-- The single-precision value nearest to `x`: a multiple of
`2^(e - 23)`, where `e` is the binary exponent of `x`, at least `-126`. -/
def to_float (x : ℚ) : ℚ :=
  if x = 0 then 0
  else
    let quantum := pow2 (max (ilog2 |x|) (-126) - 23)
    (round_half_even (x / quantum) : ℚ) * quantum

/-- Single-precision addition. -/
def fadd (a b : ℚ) : ℚ := to_float (a + b)

/-- Single-precision subtraction. -/
def fsub (a b : ℚ) : ℚ := to_float (a - b)

/-- Single-precision multiplication. -/
def fmul (a b : ℚ) : ℚ := to_float (a * b)

/-- Single-precision division. -/
def fdiv (a b : ℚ) : ℚ := to_float (a / b)

namespace Vector3df

/-- Modelled from the spec: vector addition of `geometry.h` in single
precision, component by component. -/
def fadd (a b : Vector3df) : Vector3df :=
  Vector3df.mk (Raytracer.fadd a.x b.x) (Raytracer.fadd a.y b.y) (Raytracer.fadd a.z b.z)

/-- Modelled from the spec: vector subtraction of `geometry.h` in single
precision, component by component. -/
def fsub (a b : Vector3df) : Vector3df :=
  Vector3df.mk (Raytracer.fsub a.x b.x) (Raytracer.fsub a.y b.y) (Raytracer.fsub a.z b.z)

/-- Modelled from the spec: scalar multiplication of `geometry.h` in single
precision, component by component. -/
def fsmul (s : ℚ) (v : Vector3df) : Vector3df :=
  Vector3df.mk (Raytracer.fmul s v.x) (Raytracer.fmul s v.y) (Raytracer.fmul s v.z)

/-- Modelled from the spec: dot product of `geometry.h` in single precision,
the products summed from the first component on. -/
def fdot (a b : Vector3df) : ℚ :=
  Raytracer.fadd (Raytracer.fadd (Raytracer.fmul a.x b.x) (Raytracer.fmul a.y b.y))
    (Raytracer.fmul a.z b.z)

end Vector3df

/-- The method `Screen::get_aspect_ratio` in single precision:
`float(width) / height`. -/
def Screen.get_aspect_ratio_float (s : Screen) : ℚ :=
  fdiv (to_float (s.width : ℚ)) (to_float (s.height : ℚ))

/-- The constructor `Camera(screen, _focal_length, _viewport_height)` in single
precision. -/
def Camera.create_float (screen : Screen) (_focal_length _viewport_height : ℚ) : Camera :=
  let focal_length := _focal_length
  let viewport_height := _viewport_height
  let center := Vector3df.mk 0 0 0
  let viewport_dist := Vector3df.mk 0 0 focal_length
  let viewport_width := fmul viewport_height screen.get_aspect_ratio_float
  let viewport_u := Vector3df.mk viewport_width 0 0
  let viewport_v := Vector3df.mk 0 (-viewport_height) 0
  let pixel_delta_u :=
    Vector3df.fsmul (fdiv 1 (to_float (screen.get_width : ℚ))) viewport_u
  let pixel_delta_v :=
    Vector3df.fsmul (fdiv 1 (to_float (screen.get_height : ℚ))) viewport_v
  let viewport_upper_left :=
    Vector3df.fsub
      (Vector3df.fsub (Vector3df.fsub center viewport_dist)
        (Vector3df.fsmul (1 / 2) viewport_u))
      (Vector3df.fsmul (1 / 2) viewport_v)
  let pixel00_loc :=
    Vector3df.fadd viewport_upper_left
      (Vector3df.fsmul (1 / 2) (Vector3df.fadd pixel_delta_u pixel_delta_v))
  Camera.mk screen focal_length viewport_height viewport_width center viewport_u viewport_v
    pixel_delta_u pixel_delta_v viewport_dist viewport_upper_left pixel00_loc

/-- The method `Camera::get_ray` in single precision. -/
def Camera.get_ray_float (cam : Camera) (x y : Nat) : Ray3df :=
  let pixelxy_loc :=
    Vector3df.fadd
      (Vector3df.fadd cam.pixel00_loc (Vector3df.fsmul (to_float (x : ℚ)) cam.pixel_delta_u))
      (Vector3df.fsmul (to_float (y : ℚ)) cam.pixel_delta_v)
  Ray3df.mk cam.center pixelxy_loc

/-- The constructor `Material(_color, _reflective, _k_diffuse)` in single
precision: `k_ambient = 1.0f - k_diffuse`. -/
def Material.create_float (_color : Color) (_reflective : Bool) (_k_diffuse : ℚ) : Material :=
  Material.mk _color _reflective _k_diffuse (fsub 1 _k_diffuse)

/-- One iteration of the loop of `find_light_sources` in single precision. -/
def find_light_sources_step_float (G : Geometry) (scene : Scene)
    (intersection_point : Vector3df)
    (visible_lights : List Lightsource) (light : Lightsource) : List Lightsource :=
  let light_direction := Vector3df.fsub light intersection_point
  let shadow_ray := Ray3df.mk intersection_point light_direction
  match scene.find_nearest_object G shadow_ray with
  | none => visible_lights ++ [light]
  | some shadow_context =>
    if shadow_context.intersection_context.t > 1 then visible_lights ++ [light]
    else visible_lights

/-- The function `find_light_sources` in single precision. -/
def find_light_sources_float (G : Geometry) (scene : Scene)
    (lightsources : List Lightsource) (context : Intersection_Context) : List Lightsource :=
  let intersection_point :=
    Vector3df.fadd context.intersection (Vector3df.fsmul (to_float (6 / 100)) context.normal)
  lightsources.foldl (find_light_sources_step_float G scene intersection_point) []

/-- The value of `diffuse_factor` in `lambertian`, in single precision, after
the statement `diffuse_factor *= 1.0f/lightsources.size() * k_diffuse`. -/
def diffuse_factor_float (G : Geometry) (scene : Scene) (lightsources : List Lightsource)
    (hitcontext : Hitcontext) : ℚ :=
  let object := hitcontext.object
  let intersection_context := hitcontext.intersection_context
  let visible_lights := find_light_sources_float G scene lightsources intersection_context
  let diffuse_factor := visible_lights.foldl
    (fun (diffuse_factor : ℚ) (light : Lightsource) =>
      let lightsource_normal :=
        G.normalize (Vector3df.fsub light intersection_context.intersection)
      fadd diffuse_factor
        (max 0 (Vector3df.fdot intersection_context.normal lightsource_normal))) 0
  fmul diffuse_factor
    (fmul (fdiv 1 (to_float (lightsources.length : ℚ))) object.material.k_diffuse)

/-- The function `lambertian` in single precision. -/
def lambertian_float (G : Geometry) (scene : Scene) (lightsources : List Lightsource)
    (hitcontext : Hitcontext) : Color :=
  let object := hitcontext.object
  let shading_factor := object.material.k_ambient
  let diffuse_factor := diffuse_factor_float G scene lightsources hitcontext
  let shading_factor := fadd shading_factor diffuse_factor
  Vector3df.fsmul shading_factor object.material.color

/-- The function `tracin_them_rays` in single precision. -/
def tracin_them_rays_float (G : Geometry) (scene : Scene) (lightsources : List Lightsource) :
    Ray3df → Nat → Color
  | _, 0 => black
  | ray, max_depth + 1 =>
    match scene.find_nearest_object G ray with
    | none => black
    | some context_opt =>
      if context_opt.object.material.reflective then
        let context := context_opt.intersection_context
        let normal := context.normal
        let intersection :=
          Vector3df.fadd context.intersection (Vector3df.fsmul (to_float (6 / 100)) normal)
        let reflective := Ray3df.mk intersection (G.get_reflective ray.direction normal)
        Vector3df.fadd
          (Vector3df.fsmul (to_float (9 / 10))
            (tracin_them_rays_float G scene lightsources reflective max_depth))
          (Vector3df.fsmul (to_float (1 / 10)) white)
      else lambertian_float G scene lightsources context_opt

/-- A rational stand-in for normalisation that keeps the direction: division
by the sum of the absolute components, which is at least the length, so the
result has length at most one. -/
def l1Normalize (v : Vector3df) : Vector3df :=
  if |v.x| + |v.y| + |v.z| = 0 then v else (1 / (|v.x| + |v.y| + |v.z|)) * v

/-- The geometry on the z axis with the direction-preserving `l1Normalize`. -/
def l1Geometry : Geometry := Geometry.mk axisIntersects l1Normalize mirror

/-- A light on the z axis between the green sphere and the mirror of
`mixedScene`. -/
def nearLight : Lightsource := Vector3df.mk 0 0 (-2)

/-- A scene of one matte white unit sphere on the view axis, its material
built in single precision with the given `k_diffuse`. -/
def floatMatteScene (k_diffuse : ℚ) : Scene :=
  Scene.mk [Object.mk (Material.create_float white false k_diffuse)
    (Sphere3df.mk (Vector3df.mk 0 0 (-5)) 1)]

/-- The hit of `viewAxisRay` on the sphere of `floatMatteScene`. -/
def floatMatteHit (k_diffuse : ℚ) : Hitcontext :=
  Hitcontext.mk (Object.mk (Material.create_float white false k_diffuse)
      (Sphere3df.mk (Vector3df.mk 0 0 (-5)) 1))
    (Intersection_Context.mk 4 (Vector3df.mk 0 0 (-4)) (Vector3df.mk 0 0 1))

/-- The first `n` of the lights `(0, 0, -3)`, `(0, 0, -2)`, `(0, 0, -1)`, ...
on the z axis, all straight above the hit point of `floatMatteHit`. -/
def axisLights (n : Nat) : List Lightsource :=
  (List.range n).map (fun k => Vector3df.mk 0 0 ((k : ℚ) - 3))

/-! ## Unfolding lemmas for the vector algebra -/

theorem Vector3df.add_def (a b : Vector3df) :
    a + b = Vector3df.mk (a.x + b.x) (a.y + b.y) (a.z + b.z) := rfl

theorem Vector3df.sub_def (a b : Vector3df) :
    a - b = Vector3df.mk (a.x - b.x) (a.y - b.y) (a.z - b.z) := rfl

theorem Vector3df.smul_def (s : ℚ) (v : Vector3df) :
    s * v = Vector3df.mk (s * v.x) (s * v.y) (s * v.z) := rfl

theorem Vector3df.dot_def (a b : Vector3df) :
    a * b = a.x * b.x + a.y * b.y + a.z * b.z := rfl

/-! ## The loop invariant of the nearest-hit search -/

theorem nearestInv_step (G : Geometry) (ray : Ray3df) (seen : List Object)
    (st : Option Hitcontext × ℚ) (o : Object) (h : NearestInv G ray seen st) :
    NearestInv G ray (seen ++ [o]) (find_nearest_step G ray st o) := by
  obtain ⟨b, d⟩ := st
  cases hi : G.intersects o.sphere ray with
  | none =>
    have hs : find_nearest_step G ray (b, d) o = (b, d) := by
      simp [find_nearest_step, hi]
    rw [hs]
    cases b with
    | none =>
      obtain ⟨h1, h2⟩ := h
      refine ⟨h1, ?_⟩
      intro o' ho' c hc
      rcases List.mem_append.mp ho' with hm | hm
      · exact h2 o' hm c hc
      · rw [List.mem_singleton.mp hm, hi] at hc
        cases hc
    | some hit =>
      obtain ⟨h1, h2, h3, h4, h5⟩ := h
      refine ⟨List.mem_append_left _ h1, h2, h3, h4, ?_⟩
      intro o' ho' c hc
      rcases List.mem_append.mp ho' with hm | hm
      · exact h5 o' hm c hc
      · rw [List.mem_singleton.mp hm, hi] at hc
        cases hc
  | some ctx =>
    by_cases hlt : ctx.t < d
    · have hs : find_nearest_step G ray (b, d) o = (some (Hitcontext.mk o ctx), ctx.t) := by
        simp [find_nearest_step, hi, hlt]
      rw [hs]
      have hbound : d ≤ MAXFLOAT ∧
          ∀ o' ∈ seen, ∀ c, G.intersects o'.sphere ray = some c → d ≤ c.t := by
        cases b with
        | none =>
          obtain ⟨h1, h2⟩ := h
          exact ⟨le_of_eq h1, fun o' ho' c hc => le_trans (le_of_eq h1) (h2 o' ho' c hc)⟩
        | some hit =>
          obtain ⟨_, _, h3, h4, h5⟩ := h
          have h3' : d = hit.intersection_context.t := h3
          refine ⟨?_, fun o' ho' c hc => ?_⟩
          · rw [h3']
            exact le_of_lt h4
          · rw [h3']
            exact h5 o' ho' c hc
      refine ⟨List.mem_append_right _ (List.mem_singleton.mpr rfl), hi, rfl,
        lt_of_lt_of_le hlt hbound.1, ?_⟩
      intro o' ho' c hc
      rcases List.mem_append.mp ho' with hm | hm
      · exact le_trans (le_of_lt hlt) (hbound.2 o' hm c hc)
      · rw [List.mem_singleton.mp hm, hi] at hc
        cases hc
        exact le_refl _
    · have hs : find_nearest_step G ray (b, d) o = (b, d) := by
        simp [find_nearest_step, hi, hlt]
      rw [hs]
      have hle : d ≤ ctx.t := not_lt.mp hlt
      cases b with
      | none =>
        obtain ⟨h1, h2⟩ := h
        refine ⟨h1, ?_⟩
        intro o' ho' c hc
        rcases List.mem_append.mp ho' with hm | hm
        · exact h2 o' hm c hc
        · rw [List.mem_singleton.mp hm, hi] at hc
          cases hc
          have h1' : d = MAXFLOAT := h1
          rw [← h1']
          exact hle
      | some hit =>
        obtain ⟨h1, h2, h3, h4, h5⟩ := h
        refine ⟨List.mem_append_left _ h1, h2, h3, h4, ?_⟩
        intro o' ho' c hc
        rcases List.mem_append.mp ho' with hm | hm
        · exact h5 o' hm c hc
        · rw [List.mem_singleton.mp hm, hi] at hc
          cases hc
          have h3' : d = hit.intersection_context.t := h3
          rw [← h3']
          exact hle

theorem nearestInv_foldl (G : Geometry) (ray : Ray3df) (l : List Object) :
    ∀ (seen : List Object) (st : Option Hitcontext × ℚ), NearestInv G ray seen st →
      NearestInv G ray (seen ++ l) (l.foldl (find_nearest_step G ray) st) := by
  induction l with
  | nil =>
    intro seen st h
    simpa using h
  | cons o tl ih =>
    intro seen st h
    have h' := ih (seen ++ [o]) (find_nearest_step G ray st o) (nearestInv_step G ray seen st o h)
    simpa [List.append_assoc] using h'

theorem nearestInv_scene (G : Geometry) (scene : Scene) (ray : Ray3df) :
    NearestInv G ray scene.objects
      (scene.objects.foldl (find_nearest_step G ray) (none, MAXFLOAT)) := by
  have h0 : NearestInv G ray [] (none, MAXFLOAT) := by
    refine ⟨rfl, ?_⟩
    intro o ho
    cases ho
  simpa using nearestInv_foldl G ray scene.objects [] (none, MAXFLOAT) h0

/-- What a hit returned by the search satisfies. -/
theorem find_nearest_object_some (G : Geometry) (scene : Scene) (ray : Ray3df)
    (hit : Hitcontext) (h : scene.find_nearest_object G ray = some hit) :
    hit.object ∈ scene.objects ∧
    G.intersects hit.object.sphere ray = some hit.intersection_context ∧
    hit.intersection_context.t < MAXFLOAT ∧
    ∀ o ∈ scene.objects, ∀ c, G.intersects o.sphere ray = some c →
      hit.intersection_context.t ≤ c.t := by
  have hinv := nearestInv_scene G scene ray
  unfold Scene.find_nearest_object at h
  unfold NearestInv at hinv
  rw [h] at hinv
  exact ⟨hinv.1, hinv.2.1, hinv.2.2.2.1, hinv.2.2.2.2⟩

/-- What an empty result of the search means. -/
theorem find_nearest_object_none (G : Geometry) (scene : Scene) (ray : Ray3df)
    (h : scene.find_nearest_object G ray = none) :
    ∀ o ∈ scene.objects, ∀ c, G.intersects o.sphere ray = some c → MAXFLOAT ≤ c.t := by
  have hinv := nearestInv_scene G scene ray
  unfold Scene.find_nearest_object at h
  unfold NearestInv at hinv
  rw [h] at hinv
  exact hinv.2

/-! ## Depth termination and the three cases of the tracer -/

/-- C1: for every geometry, scene, light registry and ray, `tracin_them_rays`
with `max_depth = 0` returns black, the colour `(0, 0, 0)`; the result does not
depend on the scene or the ray. -/
theorem tracin_them_rays_depth_zero (G : Geometry) (scene : Scene)
    (lightsources : List Lightsource) (ray : Ray3df) :
    tracin_them_rays G scene lightsources ray 0 = black ∧ black = Vector3df.mk 0 0 0 :=
  ⟨rfl, rfl⟩

/-- C2: for every ray and every `max_depth > 0`, `tracin_them_rays` follows
exactly three cases on the nearest hit of the ray. With no hit it returns
black. With a hit on a reflective material it returns
`0.9 * tracin_them_rays(r', max_depth - 1) + 0.1 * white`, where `r'` has
origin `intersection + 0.06 * normal` and direction
`ray.direction.get_reflective(normal)`. With a hit on any other material it
returns `lambertian(hit)`. -/
theorem tracin_them_rays_cases (G : Geometry) (scene : Scene)
    (lightsources : List Lightsource) (ray : Ray3df) (max_depth : Nat)
    (hdepth : 0 < max_depth) :
    (scene.find_nearest_object G ray = none →
      tracin_them_rays G scene lightsources ray max_depth = black) ∧
    (∀ hit, scene.find_nearest_object G ray = some hit →
      hit.object.material.reflective = true →
      tracin_them_rays G scene lightsources ray max_depth =
        ((9 / 10 : ℚ) * tracin_them_rays G scene lightsources
          (Ray3df.mk
            (hit.intersection_context.intersection
              + ((6 / 100 : ℚ) * hit.intersection_context.normal))
            (G.get_reflective ray.direction hit.intersection_context.normal))
          (max_depth - 1))
        + ((1 / 10 : ℚ) * white)) ∧
    (∀ hit, scene.find_nearest_object G ray = some hit →
      hit.object.material.reflective = false →
      tracin_them_rays G scene lightsources ray max_depth =
        lambertian G scene lightsources hit) := by
  obtain ⟨d, rfl⟩ : ∃ d, max_depth = d + 1 := ⟨max_depth - 1, by omega⟩
  refine ⟨?_, ?_, ?_⟩
  · intro h
    simp [tracin_them_rays, h]
  · intro hit h hr
    simp [tracin_them_rays, h, hr]
  · intro hit h hr
    simp [tracin_them_rays, h, hr]

/-- Witness of C2 at depth 1 on the scene of `raytracer.cc` and the ray along
the view axis. -/
theorem tracin_them_rays_cases_witness :
    0 < 1 ∧
    ((scene.find_nearest_object axisGeometry viewAxisRay = none →
      tracin_them_rays axisGeometry scene lightsources viewAxisRay 1 = black) ∧
    (∀ hit, scene.find_nearest_object axisGeometry viewAxisRay = some hit →
      hit.object.material.reflective = true →
      tracin_them_rays axisGeometry scene lightsources viewAxisRay 1 =
        ((9 / 10 : ℚ) * tracin_them_rays axisGeometry scene lightsources
          (Ray3df.mk
            (hit.intersection_context.intersection
              + ((6 / 100 : ℚ) * hit.intersection_context.normal))
            (axisGeometry.get_reflective viewAxisRay.direction
              hit.intersection_context.normal))
          (1 - 1))
        + ((1 / 10 : ℚ) * white)) ∧
    (∀ hit, scene.find_nearest_object axisGeometry viewAxisRay = some hit →
      hit.object.material.reflective = false →
      tracin_them_rays axisGeometry scene lightsources viewAxisRay 1 =
        lambertian axisGeometry scene lightsources hit)) :=
  ⟨by decide, tracin_them_rays_cases axisGeometry scene lightsources viewAxisRay 1 (by decide)⟩

/-! ## Nearest-hit search -/

/-- C3: whenever `Scene::find_nearest_object` returns a hit, the returned
object is an element of the scene, the intersection test of that object on the
ray succeeds with exactly the returned intersection context, and the returned
`t` is at most the `t` of every object of the scene whose intersection test on
the ray succeeds. -/
theorem find_nearest_object_closest (G : Geometry) (scene : Scene) (ray : Ray3df)
    (hit : Hitcontext) (h : scene.find_nearest_object G ray = some hit) :
    hit.object ∈ scene.objects ∧
    G.intersects hit.object.sphere ray = some hit.intersection_context ∧
    ∀ o ∈ scene.objects, ∀ c, G.intersects o.sphere ray = some c →
      hit.intersection_context.t ≤ c.t := by
  obtain ⟨h1, h2, _, h4⟩ := find_nearest_object_some G scene ray hit h
  exact ⟨h1, h2, h4⟩

/-- The search on the scene of `raytracer.cc` along the view axis finds the
back wall. -/
theorem find_nearest_object_viewAxisRay :
    scene.find_nearest_object axisGeometry viewAxisRay = some backWallHit := by
  norm_num [Scene.find_nearest_object, find_nearest_step, scene, viewAxisRay, backWallHit,
    big_white_ball, big_white_ball_b, big_white_ball_t, big_blue_ball, big_red_ball,
    green_ball, reflective_ball, big_offset, axisGeometry, axisIntersects, MAXFLOAT,
    Vector3df.add_def, Vector3df.sub_def, Vector3df.smul_def]

/-- Witness of C3 on the scene of `raytracer.cc`: the ray along the view axis
hits the back wall at `t = 10`. -/
theorem find_nearest_object_closest_witness :
    scene.find_nearest_object axisGeometry viewAxisRay = some backWallHit ∧
    (backWallHit.object ∈ scene.objects ∧
    axisGeometry.intersects backWallHit.object.sphere viewAxisRay
      = some backWallHit.intersection_context ∧
    ∀ o ∈ scene.objects, ∀ c, axisGeometry.intersects o.sphere viewAxisRay = some c →
      backWallHit.intersection_context.t ≤ c.t) :=
  ⟨find_nearest_object_viewAxisRay,
    find_nearest_object_closest axisGeometry scene viewAxisRay backWallHit
      find_nearest_object_viewAxisRay⟩

/-- C4 as stated fails: the sphere of `farScene` is hit by `slowRay` (the test
succeeds with `t = 2^130 - 2^70`), yet `Scene::find_nearest_object` returns
the empty result, because that `t` is not below the initial distance
`MAXFLOAT`. -/
theorem find_nearest_object_far_hit_discarded :
    (∃ o ∈ farScene.objects, ∃ c, axisGeometry.intersects o.sphere slowRay = some c ∧
      c.t = 1361129467683753853853498429727072845824 - 1180591620717411303424 ∧
      MAXFLOAT ≤ c.t) ∧
    farScene.find_nearest_object axisGeometry slowRay = none := by
  constructor
  · refine ⟨_, List.mem_singleton.mpr rfl, ?_⟩
    norm_num [slowRay, axisGeometry, axisIntersects, MAXFLOAT,
      Vector3df.add_def, Vector3df.sub_def, Vector3df.smul_def]
  · norm_num [Scene.find_nearest_object, find_nearest_step, farScene, slowRay,
      axisGeometry, axisIntersects, MAXFLOAT,
      Vector3df.add_def, Vector3df.sub_def, Vector3df.smul_def]

/-- C4, amended: if the intersection test of at least one object of the scene
succeeds on the ray with a `t` below `MAXFLOAT`, the value the running best
distance is initialised to, then `Scene::find_nearest_object` returns a hit and
not the empty result. -/
theorem find_nearest_object_finds_hit (G : Geometry) (scene : Scene) (ray : Ray3df)
    (h : ∃ o ∈ scene.objects, ∃ c, G.intersects o.sphere ray = some c ∧ c.t < MAXFLOAT) :
    ∃ hit, scene.find_nearest_object G ray = some hit := by
  obtain ⟨o, ho, c, hc, hlt⟩ := h
  cases hf : scene.find_nearest_object G ray with
  | some hit => exact ⟨hit, rfl⟩
  | none =>
    have hge := find_nearest_object_none G scene ray hf o ho c hc
    exact absurd hlt (not_lt.mpr hge)

/-- Witness of C4 (amended) on the scene of `raytracer.cc`: the back wall is
hit at `t = 10` by the ray along the view axis. -/
theorem find_nearest_object_finds_hit_witness :
    (∃ o ∈ scene.objects, ∃ c,
      axisGeometry.intersects o.sphere viewAxisRay = some c ∧ c.t < MAXFLOAT) ∧
    ∃ hit, scene.find_nearest_object axisGeometry viewAxisRay = some hit := by
  have hyp : ∃ o ∈ scene.objects, ∃ c,
      axisGeometry.intersects o.sphere viewAxisRay = some c ∧ c.t < MAXFLOAT := by
    refine ⟨big_white_ball, by simp [scene], backWallHit.intersection_context, ?_, ?_⟩
    · norm_num [big_white_ball, big_offset, viewAxisRay, backWallHit, axisGeometry,
        axisIntersects, Vector3df.add_def, Vector3df.sub_def, Vector3df.smul_def]
    · norm_num [backWallHit, MAXFLOAT]
  exact ⟨hyp, find_nearest_object_finds_hit axisGeometry scene viewAxisRay hyp⟩

theorem find_nearest_object_all_miss (G : Geometry) (scene : Scene) (ray : Ray3df)
    (h : ∀ o ∈ scene.objects, G.intersects o.sphere ray = none) :
    scene.find_nearest_object G ray = none := by
  cases hf : scene.find_nearest_object G ray with
  | none => rfl
  | some hit =>
    obtain ⟨h1, h2, _, _⟩ := find_nearest_object_some G scene ray hit hf
    rw [h hit.object h1] at h2
    cases h2

/-- C5: for every scene, the empty one included, and every ray, if no
object's intersection test succeeds on the ray, `Scene::find_nearest_object`
returns the empty result. -/
theorem find_nearest_object_no_hit (G : Geometry) (scene : Scene) (ray : Ray3df)
    (h : ∀ o ∈ scene.objects, G.intersects o.sphere ray = none) :
    scene.find_nearest_object G ray = none :=
  find_nearest_object_all_miss G scene ray h

/-- Witness of C5 on the scene of `raytracer.cc`: the ray from the origin along
`+z` leaves the box through its open side and no intersection test succeeds. -/
theorem find_nearest_object_no_hit_witness :
    (∀ o ∈ scene.objects, axisGeometry.intersects o.sphere awayRay = none) ∧
    scene.find_nearest_object axisGeometry awayRay = none := by
  have hyp : ∀ o ∈ scene.objects, axisGeometry.intersects o.sphere awayRay = none := by
    norm_num [scene, awayRay, big_white_ball, big_white_ball_b, big_white_ball_t,
      big_blue_ball, big_red_ball, green_ball, reflective_ball, big_offset, axisGeometry,
      axisIntersects]
  exact ⟨hyp, find_nearest_object_no_hit axisGeometry scene awayRay hyp⟩

/-! ## Light visibility -/

theorem find_light_sources_step_eq (G : Geometry) (scene : Scene) (point : Vector3df)
    (acc : List Lightsource) (light : Lightsource) :
    find_light_sources_step G scene point acc light =
      if shadow_ray_unobstructed G scene point light = true then acc ++ [light] else acc := by
  cases hf : scene.find_nearest_object G (Ray3df.mk point (light - point)) with
  | none => simp [find_light_sources_step, shadow_ray_unobstructed, hf]
  | some hit => simp [find_light_sources_step, shadow_ray_unobstructed, hf]

theorem find_light_sources_foldl (G : Geometry) (scene : Scene) (point : Vector3df)
    (l : List Lightsource) :
    ∀ acc : List Lightsource,
      l.foldl (find_light_sources_step G scene point) acc =
        acc ++ l.filter (shadow_ray_unobstructed G scene point) := by
  induction l with
  | nil => intro acc; simp
  | cons light tl ih =>
    intro acc
    rw [List.foldl_cons, ih, find_light_sources_step_eq]
    by_cases hv : shadow_ray_unobstructed G scene point light = true
    · simp [hv, List.filter_cons]
    · simp [hv, List.filter_cons]

theorem find_light_sources_filter (G : Geometry) (scene : Scene)
    (lightsources : List Lightsource) (context : Intersection_Context) :
    find_light_sources G scene lightsources context =
      lightsources.filter (shadow_ray_unobstructed G scene
        (context.intersection + ((6 / 100 : ℚ) * context.normal))) := by
  unfold find_light_sources
  simp [find_light_sources_foldl]

/-- C6: for every hit point `p` with normal `n`, `find_light_sources` returns
the registry filtered by the visibility test: exactly those lights `L` of the
registry, in registry order and each registry entry at most once, for which
the nearest hit of the shadow ray with origin `p + 0.06 * n` and direction
`L - (p + 0.06 * n)` is absent or has `t > 1`. -/
theorem find_light_sources_eq_filter (G : Geometry) (scene : Scene)
    (lightsources : List Lightsource) (context : Intersection_Context) :
    find_light_sources G scene lightsources context =
      lightsources.filter (shadow_ray_unobstructed G scene
        (context.intersection + ((6 / 100 : ℚ) * context.normal))) :=
  find_light_sources_filter G scene lightsources context

/-- C7, shadow monotonicity: for a registry light, if the scene contains, at
any position, an object that the shadow ray from the biased point towards the
light hits with `0 < t <= 1`, the light is not in the result of
`find_light_sources`; if no object's intersection test succeeds on that
shadow ray, the light is in the result. -/
theorem find_light_sources_shadow_monotone (G : Geometry) (scene : Scene)
    (lightsources : List Lightsource) (context : Intersection_Context)
    (light : Lightsource) (hlight : light ∈ lightsources) :
    ((∃ o ∈ scene.objects, ∃ c,
        G.intersects o.sphere
          (Ray3df.mk (context.intersection + ((6 / 100 : ℚ) * context.normal))
            (light - (context.intersection + ((6 / 100 : ℚ) * context.normal)))) = some c ∧
        0 < c.t ∧ c.t ≤ 1) →
      light ∉ find_light_sources G scene lightsources context) ∧
    ((∀ o ∈ scene.objects,
        G.intersects o.sphere
          (Ray3df.mk (context.intersection + ((6 / 100 : ℚ) * context.normal))
            (light - (context.intersection + ((6 / 100 : ℚ) * context.normal)))) = none) →
      light ∈ find_light_sources G scene lightsources context) := by
  rw [find_light_sources_filter]
  constructor
  · rintro ⟨o, ho, c, hc, _, hle⟩ hmem
    have hvis := (List.mem_filter.mp hmem).2
    unfold shadow_ray_unobstructed at hvis
    cases hf : scene.find_nearest_object G
        (Ray3df.mk (context.intersection + ((6 / 100 : ℚ) * context.normal))
          (light - (context.intersection + ((6 / 100 : ℚ) * context.normal)))) with
    | none =>
      have hge := find_nearest_object_none G scene _ hf o ho c hc
      have hmax : (1 : ℚ) < MAXFLOAT := by norm_num [MAXFLOAT]
      linarith
    | some hit =>
      rw [hf] at hvis
      have hmin := (find_nearest_object_some G scene _ hit hf).2.2.2 o ho c hc
      have hgt : 1 < hit.intersection_context.t := by simpa using hvis
      linarith
  · intro hnone
    refine List.mem_filter.mpr ⟨hlight, ?_⟩
    unfold shadow_ray_unobstructed
    have hf := find_nearest_object_all_miss G scene _ hnone
    rw [hf]

/-- Witness of C7: `zenithLight` above `originContext` is removed by the
occluder of `occludedScene` (hit at `t = 197/497`) and is visible in
`clearScene`, where no intersection test succeeds. -/
theorem find_light_sources_shadow_monotone_witness :
    zenithLight ∈ [zenithLight] ∧
    ((∃ o ∈ occludedScene.objects, ∃ c,
        axisGeometry.intersects o.sphere
          (Ray3df.mk (originContext.intersection + ((6 / 100 : ℚ) * originContext.normal))
            (zenithLight
              - (originContext.intersection + ((6 / 100 : ℚ) * originContext.normal))))
          = some c ∧ 0 < c.t ∧ c.t ≤ 1) ∧
      zenithLight ∉ find_light_sources axisGeometry occludedScene [zenithLight] originContext) ∧
    ((∀ o ∈ clearScene.objects,
        axisGeometry.intersects o.sphere
          (Ray3df.mk (originContext.intersection + ((6 / 100 : ℚ) * originContext.normal))
            (zenithLight
              - (originContext.intersection + ((6 / 100 : ℚ) * originContext.normal))))
          = none) ∧
      zenithLight ∈ find_light_sources axisGeometry clearScene [zenithLight] originContext) := by
  have hmem : zenithLight ∈ [zenithLight] := List.mem_singleton.mpr rfl
  have hocc : ∃ o ∈ occludedScene.objects, ∃ c,
      axisGeometry.intersects o.sphere
        (Ray3df.mk (originContext.intersection + ((6 / 100 : ℚ) * originContext.normal))
          (zenithLight
            - (originContext.intersection + ((6 / 100 : ℚ) * originContext.normal))))
        = some c ∧ 0 < c.t ∧ c.t ≤ 1 := by
    refine ⟨Object.mk matte_green (Sphere3df.mk (Vector3df.mk 0 0 5) 1),
      by simp [occludedScene],
      Intersection_Context.mk (197 / 497) (Vector3df.mk 0 0 4) (Vector3df.mk 0 0 (-1)),
      ?_, ?_, ?_⟩
    · norm_num [originContext, zenithLight, axisGeometry, axisIntersects,
        Vector3df.add_def, Vector3df.sub_def, Vector3df.smul_def]
    · norm_num
    · norm_num
  have hclear : ∀ o ∈ clearScene.objects,
      axisGeometry.intersects o.sphere
        (Ray3df.mk (originContext.intersection + ((6 / 100 : ℚ) * originContext.normal))
          (zenithLight
            - (originContext.intersection + ((6 / 100 : ℚ) * originContext.normal))))
        = none := by
    norm_num [clearScene, originContext, zenithLight, axisGeometry, axisIntersects,
      Vector3df.add_def, Vector3df.sub_def, Vector3df.smul_def]
  exact ⟨hmem,
    ⟨hocc, (find_light_sources_shadow_monotone axisGeometry occludedScene [zenithLight]
      originContext zenithLight hmem).1 hocc⟩,
    ⟨hclear, (find_light_sources_shadow_monotone axisGeometry clearScene [zenithLight]
      originContext zenithLight hmem).2 hclear⟩⟩

/-! ## Lambertian shading -/

theorem diffuse_foldl (f : Lightsource → ℚ) (l : List Lightsource) :
    ∀ acc : ℚ, l.foldl (fun (d : ℚ) (light : Lightsource) => d + f light) acc
      = acc + (l.map f).sum := by
  induction l with
  | nil => intro acc; simp
  | cons a tl ih =>
    intro acc
    rw [List.foldl_cons, ih, List.map_cons, List.sum_cons]
    ring

/-- C8: for every hit context, `lambertian` returns
`(k_ambient + k_diffuse * D / N) * material.color`, component by component,
where `N` is the number of lights in the registry (visible or not) and `D` is
the sum, over the lights returned by `find_light_sources`, of
`max(0, normal . u)` with `u` the normalised vector from the intersection
point (without bias) to the light. The factor is not clamped. For an empty
registry `N = 0` and `D = 0`, and the quotient is taken as `0`. -/
theorem lambertian_formula (G : Geometry) (scene : Scene)
    (lightsources : List Lightsource) (hit : Hitcontext) :
    lambertian G scene lightsources hit =
      Vector3df.mk
        ((hit.object.material.k_ambient + hit.object.material.k_diffuse *
            diffuse_sum G hit.intersection_context.intersection hit.intersection_context.normal
              (find_light_sources G scene lightsources hit.intersection_context)
            / (lightsources.length : ℚ)) * hit.object.material.color.x)
        ((hit.object.material.k_ambient + hit.object.material.k_diffuse *
            diffuse_sum G hit.intersection_context.intersection hit.intersection_context.normal
              (find_light_sources G scene lightsources hit.intersection_context)
            / (lightsources.length : ℚ)) * hit.object.material.color.y)
        ((hit.object.material.k_ambient + hit.object.material.k_diffuse *
            diffuse_sum G hit.intersection_context.intersection hit.intersection_context.normal
              (find_light_sources G scene lightsources hit.intersection_context)
            / (lightsources.length : ℚ)) * hit.object.material.color.z) := by
  have hfold := diffuse_foldl
    (fun light => max 0 (hit.intersection_context.normal
      * G.normalize (light - hit.intersection_context.intersection)))
    (find_light_sources G scene lightsources hit.intersection_context) 0
  simp only [lambertian, diffuse_sum, Vector3df.smul_def]
  rw [hfold]
  have hfac : ∀ (a D N k : ℚ), a + (0 + D) * (1 / N * k) = a + k * D / N := by
    intro a D N k
    ring
  rw [hfac]

/-! ## Energy bound on reflection -/

theorem blend_valid (c : Color) (h : Color.valid c) :
    Color.valid (((9 / 10 : ℚ) * c) + ((1 / 10 : ℚ) * white)) := by
  obtain ⟨⟨hx0, hx1⟩, ⟨hy0, hy1⟩, ⟨hz0, hz1⟩⟩ := h
  simp only [Color.valid, Vector3df.add_def, Vector3df.smul_def, white]
  refine ⟨⟨?_, ?_⟩, ⟨?_, ?_⟩, ⟨?_, ?_⟩⟩ <;> linarith

theorem black_valid : Color.valid black := by
  simp [Color.valid, black]

/-- C9: for a scene in which every object's material is reflective, for every
ray and every recursion depth, each component of
`tracin_them_rays(ray, depth)` lies in `[0, 1]`. -/
theorem tracin_them_rays_all_reflective_bounded (G : Geometry) (scene : Scene)
    (lightsources : List Lightsource)
    (hrefl : ∀ o ∈ scene.objects, o.material.reflective = true)
    (ray : Ray3df) (depth : Nat) :
    (0 ≤ (tracin_them_rays G scene lightsources ray depth).x ∧
      (tracin_them_rays G scene lightsources ray depth).x ≤ 1) ∧
    (0 ≤ (tracin_them_rays G scene lightsources ray depth).y ∧
      (tracin_them_rays G scene lightsources ray depth).y ≤ 1) ∧
    (0 ≤ (tracin_them_rays G scene lightsources ray depth).z ∧
      (tracin_them_rays G scene lightsources ray depth).z ≤ 1) := by
  have key : ∀ (depth : Nat) (ray : Ray3df),
      Color.valid (tracin_them_rays G scene lightsources ray depth) := by
    intro depth
    induction depth with
    | zero =>
      intro ray
      exact black_valid
    | succ d ih =>
      intro ray
      cases hf : scene.find_nearest_object G ray with
      | none =>
        have hb : tracin_them_rays G scene lightsources ray (d + 1) = black := by
          simp [tracin_them_rays, hf]
        rw [hb]
        exact black_valid
      | some hit =>
        have hmem := (find_nearest_object_some G scene ray hit hf).1
        have hr := hrefl hit.object hmem
        have hb : tracin_them_rays G scene lightsources ray (d + 1) =
            ((9 / 10 : ℚ) * tracin_them_rays G scene lightsources
              (Ray3df.mk
                (hit.intersection_context.intersection
                  + ((6 / 100 : ℚ) * hit.intersection_context.normal))
                (G.get_reflective ray.direction hit.intersection_context.normal)) d)
            + ((1 / 10 : ℚ) * white) := by
          simp [tracin_them_rays, hf, hr]
        rw [hb]
        exact blend_valid _ (ih _)
  exact key depth ray

/-- Witness of C9: two mirrors facing each other, traced along the view axis
to depth 5. -/
theorem tracin_them_rays_all_reflective_bounded_witness :
    (∀ o ∈ mirrorScene.objects, o.material.reflective = true) ∧
    ((0 ≤ (tracin_them_rays axisGeometry mirrorScene lightsources viewAxisRay 5).x ∧
      (tracin_them_rays axisGeometry mirrorScene lightsources viewAxisRay 5).x ≤ 1) ∧
    (0 ≤ (tracin_them_rays axisGeometry mirrorScene lightsources viewAxisRay 5).y ∧
      (tracin_them_rays axisGeometry mirrorScene lightsources viewAxisRay 5).y ≤ 1) ∧
    (0 ≤ (tracin_them_rays axisGeometry mirrorScene lightsources viewAxisRay 5).z ∧
      (tracin_them_rays axisGeometry mirrorScene lightsources viewAxisRay 5).z ≤ 1)) := by
  have hyp : ∀ o ∈ mirrorScene.objects, o.material.reflective = true := by
    simp [mirrorScene, reflective_white, Material.create]
  exact ⟨hyp, tracin_them_rays_all_reflective_bounded axisGeometry mirrorScene lightsources
    hyp viewAxisRay 5⟩

/-- C10: for every `max_depth >= 1` and every ray whose nearest hit is a
reflective object, if the nearest-hit search of the reflected ray (origin
`intersection + 0.06 * normal`, direction `ray.direction.get_reflective(normal)`)
returns no hit, `tracin_them_rays` returns `0.1 * white = (0.1, 0.1, 0.1)`,
whose components lie in `[0, 1]` and which differs from black. -/
theorem tracin_them_rays_lone_mirror (G : Geometry) (scene : Scene)
    (lightsources : List Lightsource) (ray : Ray3df) (max_depth : Nat) (hit : Hitcontext)
    (hdepth : 1 ≤ max_depth)
    (hhit : scene.find_nearest_object G ray = some hit)
    (hrefl : hit.object.material.reflective = true)
    (hmiss : scene.find_nearest_object G
      (Ray3df.mk
        (hit.intersection_context.intersection
          + ((6 / 100 : ℚ) * hit.intersection_context.normal))
        (G.get_reflective ray.direction hit.intersection_context.normal)) = none) :
    tracin_them_rays G scene lightsources ray max_depth = (1 / 10 : ℚ) * white ∧
    (1 / 10 : ℚ) * white = Vector3df.mk (1 / 10) (1 / 10) (1 / 10) ∧
    Color.valid ((1 / 10 : ℚ) * white) ∧
    (1 / 10 : ℚ) * white ≠ black := by
  obtain ⟨d, rfl⟩ : ∃ d, max_depth = d + 1 := ⟨max_depth - 1, by omega⟩
  have hrec : tracin_them_rays G scene lightsources
      (Ray3df.mk
        (hit.intersection_context.intersection
          + ((6 / 100 : ℚ) * hit.intersection_context.normal))
        (G.get_reflective ray.direction hit.intersection_context.normal)) d = black := by
    cases d with
    | zero => rfl
    | succ e => simp [tracin_them_rays, hmiss]
  have hb : tracin_them_rays G scene lightsources ray (d + 1) =
      ((9 / 10 : ℚ) * tracin_them_rays G scene lightsources
        (Ray3df.mk
          (hit.intersection_context.intersection
            + ((6 / 100 : ℚ) * hit.intersection_context.normal))
          (G.get_reflective ray.direction hit.intersection_context.normal)) d)
      + ((1 / 10 : ℚ) * white) := by
    simp [tracin_them_rays, hhit, hrefl]
  refine ⟨?_, ?_, ?_, ?_⟩
  · rw [hb, hrec]
    norm_num [black, white, Vector3df.add_def, Vector3df.smul_def]
  · norm_num [white, Vector3df.smul_def]
  · norm_num [Color.valid, white, Vector3df.smul_def]
  · norm_num [black, white, Vector3df.smul_def]

/-- Witness of C10: the ray along the view axis hits the mirror of
`loneMirrorScene` at `t = 4`; the reflected ray leaves along `+z` and hits
nothing. -/
theorem tracin_them_rays_lone_mirror_witness :
    1 ≤ 5 ∧
    loneMirrorScene.find_nearest_object axisGeometry viewAxisRay = some loneMirrorHit ∧
    loneMirrorHit.object.material.reflective = true ∧
    loneMirrorScene.find_nearest_object axisGeometry
      (Ray3df.mk
        (loneMirrorHit.intersection_context.intersection
          + ((6 / 100 : ℚ) * loneMirrorHit.intersection_context.normal))
        (axisGeometry.get_reflective viewAxisRay.direction
          loneMirrorHit.intersection_context.normal)) = none ∧
    (tracin_them_rays axisGeometry loneMirrorScene lightsources viewAxisRay 5
        = (1 / 10 : ℚ) * white ∧
      (1 / 10 : ℚ) * white = Vector3df.mk (1 / 10) (1 / 10) (1 / 10) ∧
      Color.valid ((1 / 10 : ℚ) * white) ∧
      (1 / 10 : ℚ) * white ≠ black) := by
  have h1 : loneMirrorScene.find_nearest_object axisGeometry viewAxisRay
      = some loneMirrorHit := by
    norm_num [Scene.find_nearest_object, find_nearest_step, loneMirrorScene, loneMirrorHit,
      viewAxisRay, axisGeometry, axisIntersects, MAXFLOAT,
      Vector3df.add_def, Vector3df.sub_def, Vector3df.smul_def]
  have h2 : loneMirrorHit.object.material.reflective = true := by
    simp [loneMirrorHit, reflective_white, Material.create]
  have h3 : loneMirrorScene.find_nearest_object axisGeometry
      (Ray3df.mk
        (loneMirrorHit.intersection_context.intersection
          + ((6 / 100 : ℚ) * loneMirrorHit.intersection_context.normal))
        (axisGeometry.get_reflective viewAxisRay.direction
          loneMirrorHit.intersection_context.normal)) = none := by
    norm_num [Scene.find_nearest_object, find_nearest_step, loneMirrorScene, loneMirrorHit,
      viewAxisRay, axisGeometry, axisIntersects, mirror, MAXFLOAT,
      Vector3df.add_def, Vector3df.sub_def, Vector3df.smul_def, Vector3df.dot_def]
  exact ⟨by decide, h1, h2, h3,
    tracin_them_rays_lone_mirror axisGeometry loneMirrorScene lightsources viewAxisRay 5
      loneMirrorHit (by decide) h1 h2 h3⟩

/-! ## Camera -/

theorem get_ray_direction (s : Screen) (f vh : ℚ) (x y : Nat)
    (hw : 0 < s.width) (hh : 0 < s.height) :
    ((Camera.create s f vh).get_ray x y).direction =
      Vector3df.mk
        (vh * (s.width : ℚ) / (s.height : ℚ)
          * (((x : ℚ) + 1 / 2) / (s.width : ℚ) - 1 / 2))
        (vh * (1 / 2 - ((y : ℚ) + 1 / 2) / (s.height : ℚ)))
        (-f) := by
  have hw' : (s.width : ℚ) ≠ 0 := by exact_mod_cast hw.ne'
  have hh' : (s.height : ℚ) ≠ 0 := by exact_mod_cast hh.ne'
  simp only [Camera.get_ray, Camera.create, Screen.get_aspect_ratio, Screen.get_width,
    Screen.get_height, Vector3df.add_def, Vector3df.sub_def, Vector3df.smul_def]
  congr 1
  · field_simp
    ring
  · field_simp
    ring
  · ring

/-- C11: for every screen with `width > 0` and `height > 0` and every focal
length and viewport height, the directions of `Camera::get_ray(0, 0)` and
`Camera::get_ray(width - 1, height - 1)` are symmetric about the view axis:
the z components are equal and the x and y components are negatives of each
other. -/
theorem get_ray_corner_symmetry (s : Screen) (f vh : ℚ)
    (hw : 0 < s.width) (hh : 0 < s.height) :
    ((Camera.create s f vh).get_ray 0 0).direction.z =
      ((Camera.create s f vh).get_ray (s.width - 1) (s.height - 1)).direction.z ∧
    ((Camera.create s f vh).get_ray 0 0).direction.x =
      -((Camera.create s f vh).get_ray (s.width - 1) (s.height - 1)).direction.x ∧
    ((Camera.create s f vh).get_ray 0 0).direction.y =
      -((Camera.create s f vh).get_ray (s.width - 1) (s.height - 1)).direction.y := by
  have hw' : (s.width : ℚ) ≠ 0 := by exact_mod_cast hw.ne'
  have hh' : (s.height : ℚ) ≠ 0 := by exact_mod_cast hh.ne'
  have hw1 : ((s.width - 1 : ℕ) : ℚ) = (s.width : ℚ) - 1 := by
    rw [Nat.cast_sub hw]; simp
  have hh1 : ((s.height - 1 : ℕ) : ℚ) = (s.height : ℚ) - 1 := by
    rw [Nat.cast_sub hh]; simp
  rw [get_ray_direction s f vh 0 0 hw hh,
    get_ray_direction s f vh (s.width - 1) (s.height - 1) hw hh, hw1, hh1]
  refine ⟨rfl, ?_, ?_⟩
  · simp only [Nat.cast_zero]
    field_simp
    ring
  · simp only [Nat.cast_zero]
    field_simp
    ring

/-- Witness of C11 on the screen and camera of `main`: 800 by 600 pixels, focal
length 1.5, viewport height 3. -/
theorem get_ray_corner_symmetry_witness :
    (0 < (Screen.create 800 600).width ∧ 0 < (Screen.create 800 600).height) ∧
    (((Camera.create (Screen.create 800 600) (3 / 2) 3).get_ray 0 0).direction.z =
      ((Camera.create (Screen.create 800 600) (3 / 2) 3).get_ray
        ((Screen.create 800 600).width - 1) ((Screen.create 800 600).height - 1)).direction.z ∧
    ((Camera.create (Screen.create 800 600) (3 / 2) 3).get_ray 0 0).direction.x =
      -((Camera.create (Screen.create 800 600) (3 / 2) 3).get_ray
        ((Screen.create 800 600).width - 1) ((Screen.create 800 600).height - 1)).direction.x ∧
    ((Camera.create (Screen.create 800 600) (3 / 2) 3).get_ray 0 0).direction.y =
      -((Camera.create (Screen.create 800 600) (3 / 2) 3).get_ray
        ((Screen.create 800 600).width - 1) ((Screen.create 800 600).height - 1)).direction.y) :=
  ⟨⟨by simp [Screen.create], by simp [Screen.create]⟩,
    get_ray_corner_symmetry (Screen.create 800 600) (3 / 2) 3
      (by simp [Screen.create]) (by simp [Screen.create])⟩

/-- C12, amended: in exact arithmetic, for every camera built from a screen of
width `w > 0` and height `h > 0` with focal length `f` and viewport height
`vh`, and every pixel `x < w`, `y < h`, `Camera::get_ray(x, y)` has the camera
centre `(0, 0, 0)` as origin, the same for all pixels, and the direction
`(vw * ((x + 1/2)/w - 1/2), vh * (1/2 - (y + 1/2)/h), -f)` with
`vw = vh * w / h`, where `f` is the focal length argument of the constructor. -/
theorem get_ray_pixel_centre (s : Screen) (f vh : ℚ) (x y : Nat)
    (hw : 0 < s.width) (hh : 0 < s.height) (hx : x < s.width) (hy : y < s.height) :
    ((Camera.create s f vh).get_ray x y).origin = (Camera.create s f vh).center ∧
    (Camera.create s f vh).center = Vector3df.mk 0 0 0 ∧
    (Camera.create s f vh).viewport_width = vh * (s.width : ℚ) / (s.height : ℚ) ∧
    ((Camera.create s f vh).get_ray x y).direction =
      Vector3df.mk
        ((Camera.create s f vh).viewport_width
          * (((x : ℚ) + 1 / 2) / (s.width : ℚ) - 1 / 2))
        (vh * (1 / 2 - ((y : ℚ) + 1 / 2) / (s.height : ℚ)))
        (-f) := by
  have _ := hx
  have _ := hy
  refine ⟨rfl, rfl, ?_, ?_⟩
  · simp only [Camera.create, Screen.get_aspect_ratio]
    ring
  · rw [get_ray_direction s f vh x y hw hh]
    simp only [Camera.create, Screen.get_aspect_ratio]
    congr 1
    ring

/-- Witness of C12 (amended) on the screen and camera of `main`, at pixel
`(400, 300)`, in exact arithmetic. -/
theorem get_ray_pixel_centre_witness :
    (0 < (Screen.create 800 600).width ∧ 0 < (Screen.create 800 600).height ∧
      400 < (Screen.create 800 600).width ∧ 300 < (Screen.create 800 600).height) ∧
    ((Camera.create (Screen.create 800 600) (3 / 2) 3).get_ray 400 300).direction =
      Vector3df.mk (1 / 400) (-1 / 400) (-3 / 2) := by
  have h := get_ray_pixel_centre (Screen.create 800 600) (3 / 2) 3 400 300
    (by simp [Screen.create]) (by simp [Screen.create]) (by simp [Screen.create])
    (by simp [Screen.create])
  refine ⟨⟨by simp [Screen.create], by simp [Screen.create], by simp [Screen.create],
    by simp [Screen.create]⟩, ?_⟩
  rw [h.2.2.2, h.2.2.1]
  norm_num [Screen.create]


/-! ## Quantisation of colour components -/

theorem to_unsigned_eq_floor (v : ℚ) (hv : 0 ≤ v) : (to_unsigned v : ℤ) = ⌊v⌋ := by
  have hnum : 0 ≤ v.num := Rat.num_nonneg.mpr hv
  have hden : (0 : ℤ) ≤ (v.den : ℤ) := Int.ofNat_nonneg _
  have hfl : (0 : ℤ) ≤ ⌊v⌋ := Int.floor_nonneg.mpr hv
  unfold to_unsigned
  rw [Int.tdiv_eq_ediv hnum hden, ← Rat.floor_def]
  exact Int.toNat_of_nonneg hfl

theorem channel_eq_floor (c : ℚ) (h0 : 0 ≤ c) :
    (channel c : ℤ) = ⌊c * (255999 / 1000)⌋ := by
  unfold channel
  exact to_unsigned_eq_floor _ (mul_nonneg h0 (by norm_num))

theorem channel_le (c : ℚ) (h0 : 0 ≤ c) (h1 : c ≤ 1) : channel c ≤ 255 := by
  have hfl := channel_eq_floor c h0
  have hlt : ⌊c * (255999 / 1000)⌋ < 256 := by
    rw [Int.floor_lt]
    have : c * (255999 / 1000) ≤ 255999 / 1000 := by nlinarith
    push_cast
    linarith
  omega

/-- C13: for every colour component `c` with `0 <= c <= 1`, the channel value
written by `Screen::save_to_file` equals `floor(c * 255.999)` and lies in the
8-bit range `0..255`; `c = 0` gives `0` and `c = 1` gives `255`. -/
theorem channel_quantisation (c : ℚ) (h0 : 0 ≤ c) (h1 : c ≤ 1) :
    (channel c : ℤ) = ⌊c * (255999 / 1000)⌋ ∧ channel c ≤ 255 ∧
    channel 0 = 0 ∧ channel 1 = 255 := by
  refine ⟨channel_eq_floor c h0, channel_le c h0 h1, ?_, ?_⟩
  · have h := channel_eq_floor 0 (le_refl 0)
    simp at h
    exact h
  · have h := channel_eq_floor 1 (by norm_num)
    have hfl : ⌊(1 : ℚ) * (255999 / 1000)⌋ = 255 := by
      rw [Int.floor_eq_iff]
      constructor <;> norm_num
    rw [hfl] at h
    exact_mod_cast h

/-- Witness of C13 at the component `1/2`, which is written as `127`. -/
theorem channel_quantisation_witness :
    ((0 : ℚ) ≤ 1 / 2 ∧ (1 / 2 : ℚ) ≤ 1) ∧ channel (1 / 2) = 127 ∧
    ((channel (1 / 2) : ℤ) = ⌊(1 / 2 : ℚ) * (255999 / 1000)⌋ ∧ channel (1 / 2) ≤ 255 ∧
      channel 0 = 0 ∧ channel 1 = 255) := by
  have h := channel_quantisation (1 / 2) (by norm_num) (by norm_num)
  refine ⟨⟨by norm_num, by norm_num⟩, ?_, h⟩
  have hfl : ⌊(1 / 2 : ℚ) * (255999 / 1000)⌋ = 127 := by
    rw [Int.floor_eq_iff]
    constructor <;> norm_num
  have h1 := h.1
  rw [hfl] at h1
  exact_mod_cast h1


/-! ## Framebuffer writes -/

theorem Screen.create_sized (width height : Nat) : (Screen.create width height).sized := by
  simp [Screen.sized, Screen.create]

theorem row_major_index_lt (w h x y : Nat) (hx : x < w) (hy : y < h) :
    y * w + x < w * h := by
  have h1 : y * w + x < (y + 1) * w := by
    rw [Nat.add_mul, Nat.one_mul]
    exact Nat.add_lt_add_left hx _
  have h2 : (y + 1) * w ≤ h * w := Nat.mul_le_mul_right w hy
  calc y * w + x < (y + 1) * w := h1
    _ ≤ h * w := h2
    _ = w * h := Nat.mul_comm h w

theorem row_major_index_inj (w x y x2 y2 : Nat) (hx : x < w) (hx2 : x2 < w)
    (heq : y2 * w + x2 = y * w + x) : x2 = x ∧ y2 = y := by
  have hw : 0 < w := Nat.lt_of_le_of_lt (Nat.zero_le x) hx
  have hmod : (y2 * w + x2) % w = (y * w + x) % w := by rw [heq]
  have hdiv : (y2 * w + x2) / w = (y * w + x) / w := by rw [heq]
  rw [Nat.add_comm (y2 * w), Nat.add_comm (y * w), Nat.add_mul_mod_self_right,
    Nat.add_mul_mod_self_right, Nat.mod_eq_of_lt hx2, Nat.mod_eq_of_lt hx] at hmod
  rw [Nat.add_comm (y2 * w), Nat.add_comm (y * w), Nat.add_mul_div_right _ _ hw,
    Nat.add_mul_div_right _ _ hw, Nat.div_eq_of_lt hx2, Nat.div_eq_of_lt hx,
    Nat.zero_add, Nat.zero_add] at hdiv
  exact ⟨hmod, hdiv⟩

theorem set_pixel_sized (s s' : Screen) (x y : Nat) (c : Color) (hs : s.sized)
    (h : s.set_pixel x y c = some s') : s'.sized := by
  unfold Screen.set_pixel at h
  by_cases hlt : (y * s.width + x) % UINT_RANGE < s.pixels.length
  · simp only [hlt, if_true, Option.some.injEq] at h
    rw [← h]
    simpa [Screen.sized] using hs
  · simp [hlt] at h

/-- C18 as stated fails when `width * height` does not fit `unsigned int`. On
the screen built by `Screen(65536, 65536)` the constructor's loop bound wraps
to `0`, no entry exists, and the write at the in-range coordinate `(0, 0)` is
outside `pixels`. On the screen built by `Screen(2147483649, 2)` two entries
exist and the different in-range coordinates `(0, 0)` and `(2147483647, 1)`
both address entry `0`. -/
theorem set_pixel_wraps :
    ((0 < (Screen.create 65536 65536).width ∧ 0 < (Screen.create 65536 65536).height) ∧
      (Screen.create 65536 65536).pixels = [] ∧
      (Screen.create 65536 65536).set_pixel 0 0 white = none) ∧
    ((2147483647 < (Screen.create 2147483649 2).width ∧
        1 < (Screen.create 2147483649 2).height) ∧
      (Screen.create 2147483649 2).set_pixel 0 0 white =
        some (Screen.mk 2147483649 2 [white, black]) ∧
      (Screen.create 2147483649 2).set_pixel 2147483647 1 white =
        some (Screen.mk 2147483649 2 [white, black])) := by
  refine ⟨⟨⟨?_, ?_⟩, ?_, ?_⟩, ⟨?_, ?_⟩, ?_, ?_⟩
  · norm_num [Screen.create]
  · norm_num [Screen.create]
  · norm_num [Screen.create, UINT_RANGE]
  · norm_num [Screen.create, Screen.set_pixel, UINT_RANGE]
  · norm_num [Screen.create]
  · norm_num [Screen.create]
  · norm_num [Screen.create, Screen.set_pixel, UINT_RANGE, List.replicate]
  · norm_num [Screen.create, Screen.set_pixel, UINT_RANGE, List.replicate]

/-- C18, amended: for every screen of width `w` and height `h` whose product
`w * h` fits `unsigned int` (is below `2^32`) and every in-range coordinate
`x < w`, `y < h`, `Screen::set_pixel(x, y, c)` writes `c` to the row-major
entry `y * w + x`, which is a valid index (below `w * h`, the number of
entries), and leaves every other pixel entry and the width and height
unchanged; two different in-range coordinates address different entries. -/
theorem set_pixel_row_major (s : Screen) (x y : Nat) (c : Color)
    (hs : s.sized) (hfit : s.width * s.height < UINT_RANGE)
    (hx : x < s.width) (hy : y < s.height) :
    s.pixels.length = s.width * s.height ∧
    y * s.width + x < s.width * s.height ∧
    s.set_pixel x y c =
      some (Screen.mk s.width s.height (s.pixels.set (y * s.width + x) c)) ∧
    (s.pixels.set (y * s.width + x) c)[y * s.width + x]? = some c ∧
    (∀ j, j ≠ y * s.width + x →
      (s.pixels.set (y * s.width + x) c)[j]? = s.pixels[j]?) ∧
    (∀ x2 y2, x2 < s.width → y2 < s.height → (x2 ≠ x ∨ y2 ≠ y) →
      y2 * s.width + x2 ≠ y * s.width + x) := by
  have hlen : s.pixels.length = s.width * s.height := by
    have h := hs
    unfold Screen.sized at h
    rw [h, Nat.mod_eq_of_lt hfit]
  have hidx := row_major_index_lt s.width s.height x y hx hy
  have hmod : (y * s.width + x) % UINT_RANGE = y * s.width + x :=
    Nat.mod_eq_of_lt (Nat.lt_trans hidx hfit)
  refine ⟨hlen, hidx, ?_, ?_, ?_, ?_⟩
  · unfold Screen.set_pixel
    simp only [hmod]
    rw [if_pos (by rw [hlen]; exact hidx)]
  · rw [List.getElem?_set_self (by rw [hlen]; exact hidx)]
  · intro j hj
    rw [List.getElem?_set_ne (Ne.symm hj)]
  · intro x2 y2 hx2 _ hne heq
    obtain ⟨h1, h2⟩ := row_major_index_inj s.width x y x2 y2 hx hx2 heq
    rcases hne with hne | hne
    · exact hne h1
    · exact hne h2

/-- Witness of C18 (amended) on a screen of 3 by 2 pixels: the write at
`(1, 1)` goes to entry `4`. -/
theorem set_pixel_row_major_witness :
    ((Screen.create 3 2).sized ∧
      (Screen.create 3 2).width * (Screen.create 3 2).height < UINT_RANGE ∧
      1 < (Screen.create 3 2).width ∧ 1 < (Screen.create 3 2).height) ∧
    (Screen.create 3 2).set_pixel 1 1 white =
      some (Screen.mk 3 2 [black, black, black, black, white, black]) := by
  have h1 : (Screen.create 3 2).sized := Screen.create_sized 3 2
  have h2 : (Screen.create 3 2).width * (Screen.create 3 2).height < UINT_RANGE := by
    norm_num [Screen.create, UINT_RANGE]
  have h3 : 1 < (Screen.create 3 2).width := by norm_num [Screen.create]
  have h4 : 1 < (Screen.create 3 2).height := by norm_num [Screen.create]
  have h := (set_pixel_row_major (Screen.create 3 2) 1 1 white h1 h2 h3 h4).2.2.1
  refine ⟨⟨h1, h2, h3, h4⟩, ?_⟩
  rw [h]
  norm_num [Screen.create, UINT_RANGE, List.replicate]


/-! ## Tie-breaking and the sign of `t` -/

theorem find_nearest_foldl_above (G : Geometry) (ray : Ray3df) (bound : ℚ)
    (l : List Object)
    (hl : ∀ o ∈ l, ∀ c, G.intersects o.sphere ray = some c → bound < c.t) :
    ∀ st : Option Hitcontext × ℚ, bound < st.2 →
      bound < (l.foldl (find_nearest_step G ray) st).2 := by
  induction l with
  | nil => intro st h; simpa using h
  | cons o tl ih =>
    intro st h
    rw [List.foldl_cons]
    apply ih (fun o' ho' => hl o' (List.mem_cons_of_mem _ ho'))
    cases hi : G.intersects o.sphere ray with
    | none => simpa [find_nearest_step, hi] using h
    | some ctx =>
      by_cases hlt : ctx.t < st.2
      · simpa [find_nearest_step, hi, hlt] using hl o (List.mem_cons_self _ _) ctx hi
      · simpa [find_nearest_step, hi, hlt] using h

theorem find_nearest_foldl_keep (G : Geometry) (ray : Ray3df) (l : List Object) :
    ∀ st : Option Hitcontext × ℚ,
      (∀ o ∈ l, ∀ c, G.intersects o.sphere ray = some c → st.2 ≤ c.t) →
      l.foldl (find_nearest_step G ray) st = st := by
  induction l with
  | nil => intro st _; rfl
  | cons o tl ih =>
    intro st hl
    rw [List.foldl_cons]
    have hstep : find_nearest_step G ray st o = st := by
      cases hi : G.intersects o.sphere ray with
      | none => simp [find_nearest_step, hi]
      | some ctx =>
        have hle := hl o (List.mem_cons_self _ _) ctx hi
        simp [find_nearest_step, hi, not_lt.mpr hle]
    rw [hstep]
    exact ih st (fun o' ho' => hl o' (List.mem_cons_of_mem _ ho'))

theorem find_nearest_object_first_min (G : Geometry) (ray : Ray3df)
    (pre post : List Object) (o : Object) (c : Intersection_Context)
    (hc : G.intersects o.sphere ray = some c) (hlt : c.t < MAXFLOAT)
    (hpre : ∀ o' ∈ pre, ∀ c', G.intersects o'.sphere ray = some c' → c.t < c'.t)
    (hpost : ∀ o' ∈ post, ∀ c', G.intersects o'.sphere ray = some c' → c.t ≤ c'.t) :
    (Scene.mk (pre ++ o :: post)).find_nearest_object G ray = some (Hitcontext.mk o c) := by
  unfold Scene.find_nearest_object
  rw [List.foldl_append, List.foldl_cons]
  have habove := find_nearest_foldl_above G ray c.t pre hpre (none, MAXFLOAT) hlt
  have hstep : find_nearest_step G ray
      (pre.foldl (find_nearest_step G ray) (none, MAXFLOAT)) o
        = (some (Hitcontext.mk o c), c.t) := by
    simp [find_nearest_step, hc, habove]
  rw [hstep, find_nearest_foldl_keep G ray post _ hpost]

/-- C15 as stated fails when the common minimal `t` is not below `MAXFLOAT`:
both spheres of `farTieScene` are hit by `slowRay` at the same
`t = 2^130 - 2^70`, and `Scene::find_nearest_object` returns the empty result
instead of the first of them. -/
theorem find_nearest_object_far_tie :
    (∀ o ∈ farTieScene.objects, ∃ c, axisGeometry.intersects o.sphere slowRay = some c ∧
      c.t = 1361129467683753853853498429727072845824 - 1180591620717411303424) ∧
    farTieScene.find_nearest_object axisGeometry slowRay = none := by
  constructor
  · norm_num [farTieScene, slowRay, axisGeometry, axisIntersects,
      Vector3df.add_def, Vector3df.sub_def, Vector3df.smul_def]
  · norm_num [Scene.find_nearest_object, find_nearest_step, farTieScene, slowRay,
      axisGeometry, axisIntersects, MAXFLOAT,
      Vector3df.add_def, Vector3df.sub_def, Vector3df.smul_def]

/-- C15, amended: for every scene and ray, when several objects of the scene
intersect the ray at the same minimal `t` and that `t` is below `MAXFLOAT`,
`Scene::find_nearest_object` returns the one that comes first in the scene's
object order. Here `o` is the first object reaching the minimal `t`: every
object before it that is hit has a larger `t`, every object after it that is
hit has a `t` at least as large. -/
theorem find_nearest_object_tie_first (G : Geometry) (scene : Scene) (ray : Ray3df)
    (pre post : List Object) (o : Object) (c : Intersection_Context)
    (hscene : scene.objects = pre ++ o :: post)
    (hc : G.intersects o.sphere ray = some c) (hlt : c.t < MAXFLOAT)
    (hpre : ∀ o' ∈ pre, ∀ c', G.intersects o'.sphere ray = some c' → c.t < c'.t)
    (hpost : ∀ o' ∈ post, ∀ c', G.intersects o'.sphere ray = some c' → c.t ≤ c'.t) :
    scene.find_nearest_object G ray = some (Hitcontext.mk o c) := by
  have h := find_nearest_object_first_min G ray pre post o c hc hlt hpre hpost
  have hs : scene = Scene.mk (pre ++ o :: post) := by
    cases scene
    simp only [Scene.mk.injEq]
    exact hscene
  rw [hs]
  exact h

/-- Witness of C15 (amended): both spheres of `tieScene` are hit at `t = 4` by
the ray along the view axis, and the white one, first in order, is returned. -/
theorem find_nearest_object_tie_first_witness :
    (tieScene.objects =
        [] ++ Object.mk matte_white (Sphere3df.mk (Vector3df.mk 0 0 (-5)) 1)
          :: [Object.mk matte_red (Sphere3df.mk (Vector3df.mk 0 0 (-5)) 1)] ∧
      axisGeometry.intersects (Sphere3df.mk (Vector3df.mk 0 0 (-5)) 1) viewAxisRay
        = some (Intersection_Context.mk 4 (Vector3df.mk 0 0 (-4)) (Vector3df.mk 0 0 1)) ∧
      (4 : ℚ) < MAXFLOAT) ∧
    tieScene.find_nearest_object axisGeometry viewAxisRay =
      some (Hitcontext.mk (Object.mk matte_white (Sphere3df.mk (Vector3df.mk 0 0 (-5)) 1))
        (Intersection_Context.mk 4 (Vector3df.mk 0 0 (-4)) (Vector3df.mk 0 0 1))) := by
  have h1 : tieScene.objects =
      [] ++ Object.mk matte_white (Sphere3df.mk (Vector3df.mk 0 0 (-5)) 1)
        :: [Object.mk matte_red (Sphere3df.mk (Vector3df.mk 0 0 (-5)) 1)] := rfl
  have h2 : axisGeometry.intersects (Sphere3df.mk (Vector3df.mk 0 0 (-5)) 1) viewAxisRay
      = some (Intersection_Context.mk 4 (Vector3df.mk 0 0 (-4)) (Vector3df.mk 0 0 1)) := by
    norm_num [viewAxisRay, axisGeometry, axisIntersects,
      Vector3df.add_def, Vector3df.sub_def, Vector3df.smul_def]
  have h3 : (4 : ℚ) < MAXFLOAT := by norm_num [MAXFLOAT]
  refine ⟨⟨h1, h2, h3⟩, ?_⟩
  refine find_nearest_object_tie_first axisGeometry tieScene viewAxisRay [] _ _ _ h1 h2 h3 ?_ ?_
  · intro o' ho'
    cases ho'
  · intro o' ho' c' hc'
    rw [List.mem_singleton.mp ho', h2] at hc'
    cases hc'
    exact le_refl _

theorem find_nearest_object_below (G : Geometry) (scene : Scene) (ray : Ray3df)
    (o : Object) (ho : o ∈ scene.objects) (c : Intersection_Context)
    (hc : G.intersects o.sphere ray = some c) (hlt : c.t < MAXFLOAT) :
    ∃ hit, scene.find_nearest_object G ray = some hit ∧ hit.intersection_context.t ≤ c.t := by
  cases hf : scene.find_nearest_object G ray with
  | none =>
    have hge := find_nearest_object_none G scene ray hf o ho c hc
    exact absurd hlt (not_lt.mpr hge)
  | some hit =>
    exact ⟨hit, rfl, (find_nearest_object_some G scene ray hit hf).2.2.2 o ho c hc⟩

/-- C16 as stated fails: `Scene::find_nearest_object` has no test on the sign
of `t`. With a sphere test that reports crossings behind the ray origin, the
red sphere of `behindScene`, reported at `t = -6`, is returned for the ray
along the view axis and displaces the green sphere hit at `t = 4`. -/
theorem find_nearest_object_negative_t :
    axisLineGeometry.intersects (Sphere3df.mk (Vector3df.mk 0 0 (-5)) 1) viewAxisRay
      = some (Intersection_Context.mk 4 (Vector3df.mk 0 0 (-4)) (Vector3df.mk 0 0 1)) ∧
    axisLineGeometry.intersects (Sphere3df.mk (Vector3df.mk 0 0 5) 1) viewAxisRay
      = some (Intersection_Context.mk (-6) (Vector3df.mk 0 0 6) (Vector3df.mk 0 0 1)) ∧
    behindScene.find_nearest_object axisLineGeometry viewAxisRay =
      some (Hitcontext.mk (Object.mk matte_red (Sphere3df.mk (Vector3df.mk 0 0 5) 1))
        (Intersection_Context.mk (-6) (Vector3df.mk 0 0 6) (Vector3df.mk 0 0 1))) := by
  refine ⟨?_, ?_, ?_⟩
  · norm_num [viewAxisRay, axisLineGeometry, axisLineIntersects,
      Vector3df.add_def, Vector3df.sub_def, Vector3df.smul_def]
  · norm_num [viewAxisRay, axisLineGeometry, axisLineIntersects,
      Vector3df.add_def, Vector3df.sub_def, Vector3df.smul_def]
  · norm_num [Scene.find_nearest_object, find_nearest_step, behindScene, viewAxisRay,
      axisLineGeometry, axisLineIntersects, MAXFLOAT,
      Vector3df.add_def, Vector3df.sub_def, Vector3df.smul_def]

/-- C16, amended: `Scene::find_nearest_object` applies no test of its own to
the sign of `t`. For every scene and ray on which every successful
intersection test reports `t > 0`, it never returns a hit whose `t` is zero or
negative. An object whose intersection test reports `t <= 0` is treated like
any other: the search then returns a hit with `t` at most that value, so a hit
with positive `t` is displaced. -/
theorem find_nearest_object_sign (G : Geometry) (scene : Scene) (ray : Ray3df) :
    ((∀ o ∈ scene.objects, ∀ c, G.intersects o.sphere ray = some c → 0 < c.t) →
      ∀ hit, scene.find_nearest_object G ray = some hit → 0 < hit.intersection_context.t) ∧
    (∀ o ∈ scene.objects, ∀ c, G.intersects o.sphere ray = some c → c.t ≤ 0 →
      ∃ hit, scene.find_nearest_object G ray = some hit ∧
        hit.intersection_context.t ≤ c.t ∧ hit.intersection_context.t ≤ 0) := by
  constructor
  · intro hpos hit hf
    obtain ⟨hmem, hctx, _, _⟩ := find_nearest_object_some G scene ray hit hf
    exact hpos hit.object hmem hit.intersection_context hctx
  · intro o ho c hc hle
    have hmax : (0 : ℚ) < MAXFLOAT := by norm_num [MAXFLOAT]
    obtain ⟨hit, hf, hmin⟩ :=
      find_nearest_object_below G scene ray o ho c hc (lt_of_le_of_lt hle hmax)
    exact ⟨hit, hf, hmin, le_trans hmin hle⟩


/-! ## Bounds on the shading factor -/

theorem dot_le_one (a b : Vector3df) (ha : (a * a : ℚ) = 1) (hb : (b * b : ℚ) ≤ 1) :
    (a * b : ℚ) ≤ 1 := by
  rw [Vector3df.dot_def] at ha hb ⊢
  nlinarith [sq_nonneg (a.x - b.x), sq_nonneg (a.y - b.y), sq_nonneg (a.z - b.z)]

theorem diffuse_sum_nonneg (G : Geometry) (point normal : Vector3df)
    (lights : List Lightsource) : 0 ≤ diffuse_sum G point normal lights := by
  unfold diffuse_sum
  apply List.sum_nonneg
  intro v hv
  obtain ⟨light, _, rfl⟩ := List.mem_map.mp hv
  exact le_max_left _ _

theorem diffuse_sum_le_length (G : Geometry) (point normal : Vector3df)
    (hnormal : (normal * normal : ℚ) = 1) (lights : List Lightsource)
    (hunit : ∀ light ∈ lights,
      (G.normalize (light - point) * G.normalize (light - point) : ℚ) ≤ 1) :
    diffuse_sum G point normal lights ≤ (lights.length : ℚ) := by
  induction lights with
  | nil => simp [diffuse_sum]
  | cons a tl ih =>
    have h1 : max 0 (normal * G.normalize (a - point) : ℚ) ≤ 1 :=
      max_le zero_le_one (dot_le_one _ _ hnormal (hunit a (List.mem_cons_self _ _)))
    have h2 := ih (fun light hl => hunit light (List.mem_cons_of_mem _ hl))
    unfold diffuse_sum at h2 ⊢
    rw [List.map_cons, List.sum_cons, List.length_cons]
    push_cast
    linarith

theorem diffuse_sum_sublist (G : Geometry) (point normal : Vector3df)
    (vis lights : List Lightsource) (hsub : List.Sublist vis lights) :
    diffuse_sum G point normal vis ≤ diffuse_sum G point normal lights := by
  unfold diffuse_sum
  apply List.Sublist.sum_le_sum (hsub.map _)
  intro v hv
  obtain ⟨light, _, rfl⟩ := List.mem_map.mp hv
  exact le_max_left _ _

theorem find_light_sources_sublist (G : Geometry) (scene : Scene)
    (lightsources : List Lightsource) (context : Intersection_Context) :
    List.Sublist (find_light_sources G scene lightsources context) lightsources := by
  rw [find_light_sources_filter]
  exact List.filter_sublist _

theorem lambertian_shading (G : Geometry) (scene : Scene)
    (lightsources : List Lightsource) (hit : Hitcontext) :
    lambertian G scene lightsources hit =
      (hit.object.material.k_ambient + normalised_diffuse G lightsources hit
          (find_light_sources G scene lightsources hit.intersection_context))
        * hit.object.material.color := by
  have hfold := diffuse_foldl
    (fun light => max 0 (hit.intersection_context.normal
      * G.normalize (light - hit.intersection_context.intersection)))
    (find_light_sources G scene lightsources hit.intersection_context) 0
  simp only [lambertian, normalised_diffuse, diffuse_sum]
  rw [hfold, zero_add]

theorem normalised_diffuse_bounds (G : Geometry) (lightsources : List Lightsource)
    (hit : Hitcontext) (vis : List Lightsource)
    (hnormal :
      (hit.intersection_context.normal * hit.intersection_context.normal : ℚ) = 1)
    (hunit : ∀ light ∈ lightsources,
      (G.normalize (light - hit.intersection_context.intersection)
        * G.normalize (light - hit.intersection_context.intersection) : ℚ) ≤ 1)
    (hk0 : 0 ≤ hit.object.material.k_diffuse)
    (hne : lightsources ≠ []) (hsub : List.Sublist vis lightsources) :
    0 ≤ normalised_diffuse G lightsources hit vis ∧
    normalised_diffuse G lightsources hit vis ≤ hit.object.material.k_diffuse ∧
    normalised_diffuse G lightsources hit vis
      ≤ normalised_diffuse G lightsources hit lightsources := by
  have hN : (0 : ℚ) < (lightsources.length : ℚ) := by
    exact_mod_cast List.length_pos.mpr hne
  have hfac : 0 ≤ 1 / (lightsources.length : ℚ) * hit.object.material.k_diffuse :=
    mul_nonneg (le_of_lt (one_div_pos.mpr hN)) hk0
  have hD0 := diffuse_sum_nonneg G hit.intersection_context.intersection
    hit.intersection_context.normal vis
  have hDle : diffuse_sum G hit.intersection_context.intersection
      hit.intersection_context.normal vis ≤ (lightsources.length : ℚ) := by
    have h1 := diffuse_sum_le_length G hit.intersection_context.intersection
      hit.intersection_context.normal hnormal vis
      (fun light hl => hunit light (hsub.subset hl))
    have h2 : (vis.length : ℚ) ≤ (lightsources.length : ℚ) := by
      exact_mod_cast hsub.length_le
    linarith
  have hmono := diffuse_sum_sublist G hit.intersection_context.intersection
    hit.intersection_context.normal vis lightsources hsub
  unfold normalised_diffuse
  refine ⟨mul_nonneg hD0 hfac, ?_, mul_le_mul_of_nonneg_right hmono hfac⟩
  calc diffuse_sum G hit.intersection_context.intersection
        hit.intersection_context.normal vis
        * (1 / (lightsources.length : ℚ) * hit.object.material.k_diffuse)
      ≤ (lightsources.length : ℚ)
        * (1 / (lightsources.length : ℚ) * hit.object.material.k_diffuse) :=
        mul_le_mul_of_nonneg_right hDle hfac
    _ = hit.object.material.k_diffuse := by
        field_simp

/-- C17, amended: in exact arithmetic, for every hit context with a unit-length
normal, a material with `k_diffuse` in `[0, 1]` and
`k_ambient = 1 - k_diffuse`, and a non-empty light registry, the normalised
directions to the lights having length at most one, the normalised diffuse
term of `lambertian` lies in `[0, k_diffuse]` whatever sublist `vis` of the
registry is visible, and is at most the term obtained when all lights are
visible; the lights found by `find_light_sources` are such a sublist, and the
shading factor that `lambertian` multiplies into the colour lies in
`[k_ambient, 1]`. -/
theorem lambertian_shading_bounds (G : Geometry) (scene : Scene)
    (lightsources : List Lightsource) (hit : Hitcontext)
    (hnormal :
      (hit.intersection_context.normal * hit.intersection_context.normal : ℚ) = 1)
    (hunit : ∀ light ∈ lightsources,
      (G.normalize (light - hit.intersection_context.intersection)
        * G.normalize (light - hit.intersection_context.intersection) : ℚ) ≤ 1)
    (hk0 : 0 ≤ hit.object.material.k_diffuse) (hk1 : hit.object.material.k_diffuse ≤ 1)
    (hka : hit.object.material.k_ambient = 1 - hit.object.material.k_diffuse)
    (hne : lightsources ≠ []) :
    (∀ vis, List.Sublist vis lightsources →
      0 ≤ normalised_diffuse G lightsources hit vis ∧
      normalised_diffuse G lightsources hit vis ≤ hit.object.material.k_diffuse ∧
      normalised_diffuse G lightsources hit vis
        ≤ normalised_diffuse G lightsources hit lightsources) ∧
    List.Sublist (find_light_sources G scene lightsources hit.intersection_context)
      lightsources ∧
    lambertian G scene lightsources hit =
      (hit.object.material.k_ambient + normalised_diffuse G lightsources hit
          (find_light_sources G scene lightsources hit.intersection_context))
        * hit.object.material.color ∧
    hit.object.material.k_ambient ≤
      hit.object.material.k_ambient + normalised_diffuse G lightsources hit
        (find_light_sources G scene lightsources hit.intersection_context) ∧
    hit.object.material.k_ambient + normalised_diffuse G lightsources hit
        (find_light_sources G scene lightsources hit.intersection_context) ≤ 1 := by
  have _ := hk1
  have hsub := find_light_sources_sublist G scene lightsources hit.intersection_context
  have hb := normalised_diffuse_bounds G lightsources hit _ hnormal hunit hk0 hne hsub
  refine ⟨fun vis hvis =>
      normalised_diffuse_bounds G lightsources hit vis hnormal hunit hk0 hne hvis,
    hsub, lambertian_shading G scene lightsources hit, ?_, ?_⟩
  · linarith [hb.1]
  · rw [hka]
    linarith [hb.2.1]


/-! ## Validity of every traced colour -/

theorem scaled_color_valid (f : ℚ) (c : Color) (hf0 : 0 ≤ f) (hf1 : f ≤ 1)
    (hc : Color.valid c) : Color.valid (f * c) := by
  obtain ⟨⟨hx0, hx1⟩, ⟨hy0, hy1⟩, ⟨hz0, hz1⟩⟩ := hc
  simp only [Color.valid, Vector3df.smul_def]
  exact ⟨⟨mul_nonneg hf0 hx0, mul_le_one₀ hf1 hx0 hx1⟩,
    ⟨mul_nonneg hf0 hy0, mul_le_one₀ hf1 hy0 hy1⟩,
    ⟨mul_nonneg hf0 hz0, mul_le_one₀ hf1 hz0 hz1⟩⟩

theorem tracin_them_rays_color_valid (G : Geometry) (scene : Scene)
    (lightsources : List Lightsource)
    (hcol : ∀ o ∈ scene.objects, Color.valid o.material.color)
    (hk : ∀ o ∈ scene.objects, 0 ≤ o.material.k_diffuse ∧ o.material.k_diffuse ≤ 1 ∧
      o.material.k_ambient = 1 - o.material.k_diffuse)
    (hnormal : ∀ o ∈ scene.objects, ∀ ray c, G.intersects o.sphere ray = some c →
      (c.normal * c.normal : ℚ) = 1)
    (hunit : ∀ o ∈ scene.objects, ∀ ray c, G.intersects o.sphere ray = some c →
      ∀ light ∈ lightsources,
        (G.normalize (light - c.intersection) * G.normalize (light - c.intersection) : ℚ) ≤ 1)
    (hne : lightsources ≠ []) :
    ∀ (depth : Nat) (ray : Ray3df),
      Color.valid (tracin_them_rays G scene lightsources ray depth) := by
  intro depth
  induction depth with
  | zero =>
    intro ray
    exact black_valid
  | succ d ih =>
    intro ray
    cases hf : scene.find_nearest_object G ray with
    | none =>
      have hb : tracin_them_rays G scene lightsources ray (d + 1) = black := by
        simp [tracin_them_rays, hf]
      rw [hb]
      exact black_valid
    | some hit =>
      obtain ⟨hmem, hctx, _, _⟩ := find_nearest_object_some G scene ray hit hf
      by_cases hr : hit.object.material.reflective = true
      · have hb : tracin_them_rays G scene lightsources ray (d + 1) =
            ((9 / 10 : ℚ) * tracin_them_rays G scene lightsources
              (Ray3df.mk
                (hit.intersection_context.intersection
                  + ((6 / 100 : ℚ) * hit.intersection_context.normal))
                (G.get_reflective ray.direction hit.intersection_context.normal)) d)
            + ((1 / 10 : ℚ) * white) := by
          simp [tracin_them_rays, hf, hr]
        rw [hb]
        exact blend_valid _ (ih _)
      · have hb : tracin_them_rays G scene lightsources ray (d + 1) =
            lambertian G scene lightsources hit := by
          simp [tracin_them_rays, hf, hr]
        obtain ⟨hk0, hk1, hka⟩ := hk hit.object hmem
        have hsb := normalised_diffuse_bounds G lightsources hit
          (find_light_sources G scene lightsources hit.intersection_context)
          (hnormal hit.object hmem ray hit.intersection_context hctx)
          (hunit hit.object hmem ray hit.intersection_context hctx) hk0 hne
          (find_light_sources_sublist G scene lightsources hit.intersection_context)
        rw [hb, lambertian_shading]
        apply scaled_color_valid _ _ _ _ (hcol hit.object hmem)
        · rw [hka]
          linarith [hsb.1]
        · rw [hka]
          linarith [hsb.2.1]


/-- C19, amended: in exact arithmetic, for every scene, reflective or not, in
which every material colour has components in `[0, 1]`, every `k_diffuse` lies
in `[0, 1]` with `k_ambient = 1 - k_diffuse`, every reported hit normal is unit
length, the normalised directions from a hit point to the lights have length
at most one and the light registry is non-empty, every component of
`tracin_them_rays(ray, depth)` lies in `[0, 1]` for every ray and every depth,
so each channel written for it lies in `0..255`. -/
theorem tracin_them_rays_valid (G : Geometry) (scene : Scene)
    (lightsources : List Lightsource)
    (hcol : ∀ o ∈ scene.objects, Color.valid o.material.color)
    (hk : ∀ o ∈ scene.objects, 0 ≤ o.material.k_diffuse ∧ o.material.k_diffuse ≤ 1 ∧
      o.material.k_ambient = 1 - o.material.k_diffuse)
    (hnormal : ∀ o ∈ scene.objects, ∀ ray c, G.intersects o.sphere ray = some c →
      (c.normal * c.normal : ℚ) = 1)
    (hunit : ∀ o ∈ scene.objects, ∀ ray c, G.intersects o.sphere ray = some c →
      ∀ light ∈ lightsources,
        (G.normalize (light - c.intersection) * G.normalize (light - c.intersection) : ℚ) ≤ 1)
    (hne : lightsources ≠ []) (ray : Ray3df) (depth : Nat) :
    ((0 ≤ (tracin_them_rays G scene lightsources ray depth).x ∧
        (tracin_them_rays G scene lightsources ray depth).x ≤ 1) ∧
      (0 ≤ (tracin_them_rays G scene lightsources ray depth).y ∧
        (tracin_them_rays G scene lightsources ray depth).y ≤ 1) ∧
      (0 ≤ (tracin_them_rays G scene lightsources ray depth).z ∧
        (tracin_them_rays G scene lightsources ray depth).z ≤ 1)) ∧
    channel (tracin_them_rays G scene lightsources ray depth).x ≤ 255 ∧
    channel (tracin_them_rays G scene lightsources ray depth).y ≤ 255 ∧
    channel (tracin_them_rays G scene lightsources ray depth).z ≤ 255 := by
  have hv := tracin_them_rays_color_valid G scene lightsources hcol hk hnormal hunit hne
    depth ray
  exact ⟨hv, channel_le _ hv.1.1 hv.1.2, channel_le _ hv.2.1.1 hv.2.1.2,
    channel_le _ hv.2.2.1 hv.2.2.2⟩

/-! ## Facts about the geometry on the z axis -/

theorem axis_normal_unit (P c : Vector3df) (r : ℚ) (hr : r ≠ 0)
    (hx : P.x = 0) (hy : P.y = 0) (hcx : c.x = 0) (hcy : c.y = 0)
    (hz : P.z = c.z - r ∨ P.z = c.z + r) :
    ((((1 / r : ℚ) * (P - c)) * ((1 / r : ℚ) * (P - c)) : ℚ)) = 1 := by
  simp only [Vector3df.dot_def, Vector3df.smul_def, Vector3df.sub_def, hx, hy, hcx, hcy]
  rcases hz with hz | hz
  · rw [hz]
    field_simp
  · rw [hz]
    field_simp

theorem axis_choice (t1 t2 : ℚ) :
    (if 0 < min t1 t2 then min t1 t2 else max t1 t2) = t1 ∨
    (if 0 < min t1 t2 then min t1 t2 else max t1 t2) = t2 := by
  by_cases h : 0 < min t1 t2
  · rw [if_pos h]
    exact min_choice t1 t2
  · rw [if_neg h]
    exact max_choice t1 t2

theorem axisIntersects_spec (s : Sphere3df) (ray : Ray3df) (c : Intersection_Context)
    (h : axisIntersects s ray = some c) :
    0 < c.t ∧ (c.normal * c.normal : ℚ) = 1 ∧
    c.intersection.x = 0 ∧ c.intersection.y = 0 ∧
    (c.intersection.z = s.center.z - s.radius ∨
      c.intersection.z = s.center.z + s.radius) := by
  unfold axisIntersects at h
  by_cases hcond : ray.origin.x = 0 ∧ ray.origin.y = 0 ∧ ray.direction.x = 0 ∧
      ray.direction.y = 0 ∧ ray.direction.z ≠ 0 ∧ s.center.x = 0 ∧ s.center.y = 0 ∧
      0 < s.radius
  · rw [if_pos hcond] at h
    obtain ⟨hox, hoy, hdx, hdy, hdz, hcx, hcy, hr⟩ := hcond
    have hr' : s.radius ≠ 0 := ne_of_gt hr
    simp only at h
    by_cases hpos : 0 <
        (if 0 < min ((s.center.z - s.radius - ray.origin.z) / ray.direction.z)
            ((s.center.z + s.radius - ray.origin.z) / ray.direction.z)
          then min ((s.center.z - s.radius - ray.origin.z) / ray.direction.z)
            ((s.center.z + s.radius - ray.origin.z) / ray.direction.z)
          else max ((s.center.z - s.radius - ray.origin.z) / ray.direction.z)
            ((s.center.z + s.radius - ray.origin.z) / ray.direction.z))
    · rw [if_pos hpos] at h
      simp only [Option.some.injEq] at h
      subst h
      have hz : (ray.origin +
            ((if 0 < min ((s.center.z - s.radius - ray.origin.z) / ray.direction.z)
                ((s.center.z + s.radius - ray.origin.z) / ray.direction.z)
              then min ((s.center.z - s.radius - ray.origin.z) / ray.direction.z)
                ((s.center.z + s.radius - ray.origin.z) / ray.direction.z)
              else max ((s.center.z - s.radius - ray.origin.z) / ray.direction.z)
                ((s.center.z + s.radius - ray.origin.z) / ray.direction.z))
              * ray.direction)).z = s.center.z - s.radius ∨
          (ray.origin +
            ((if 0 < min ((s.center.z - s.radius - ray.origin.z) / ray.direction.z)
                ((s.center.z + s.radius - ray.origin.z) / ray.direction.z)
              then min ((s.center.z - s.radius - ray.origin.z) / ray.direction.z)
                ((s.center.z + s.radius - ray.origin.z) / ray.direction.z)
              else max ((s.center.z - s.radius - ray.origin.z) / ray.direction.z)
                ((s.center.z + s.radius - ray.origin.z) / ray.direction.z))
              * ray.direction)).z = s.center.z + s.radius := by
        simp only [Vector3df.add_def, Vector3df.smul_def]
        rcases axis_choice ((s.center.z - s.radius - ray.origin.z) / ray.direction.z)
          ((s.center.z + s.radius - ray.origin.z) / ray.direction.z) with hm | hm
        · left
          rw [hm, div_mul_cancel₀ _ hdz]
          ring
        · right
          rw [hm, div_mul_cancel₀ _ hdz]
          ring
      refine ⟨hpos, ?_, ?_, ?_, hz⟩
      · refine axis_normal_unit _ s.center s.radius hr' ?_ ?_ hcx hcy hz
        · simp [Vector3df.add_def, Vector3df.smul_def, hox, hdx]
        · simp [Vector3df.add_def, Vector3df.smul_def, hoy, hdy]
      · simp [Vector3df.add_def, Vector3df.smul_def, hox, hdx]
      · simp [Vector3df.add_def, Vector3df.smul_def, hoy, hdy]
    · rw [if_neg hpos] at h
      cases h
  · rw [if_neg hcond] at h
    cases h

theorem axisNormalize_unit (v : Vector3df) (hx : v.x = 0) (hy : v.y = 0) (hz : v.z ≠ 0) :
    (axisNormalize v * axisNormalize v : ℚ) = 1 := by
  have habs : |v.z| ≠ 0 := abs_ne_zero.mpr hz
  unfold axisNormalize
  rw [if_pos ⟨hx, hy, hz⟩]
  simp only [Vector3df.dot_def, Vector3df.smul_def, hx, hy]
  field_simp

/-- Witness of C16 (amended): on the scene of `raytracer.cc` the sphere test on
the z axis only reports `t > 0`, and so does the search. -/
theorem find_nearest_object_sign_witness :
    (∀ o ∈ scene.objects, ∀ c,
      axisGeometry.intersects o.sphere viewAxisRay = some c → 0 < c.t) ∧
    (∀ hit, scene.find_nearest_object axisGeometry viewAxisRay = some hit →
      0 < hit.intersection_context.t) := by
  have hyp : ∀ o ∈ scene.objects, ∀ c,
      axisGeometry.intersects o.sphere viewAxisRay = some c → 0 < c.t :=
    fun o _ c hc => (axisIntersects_spec o.sphere viewAxisRay c hc).1
  exact ⟨hyp, (find_nearest_object_sign axisGeometry scene viewAxisRay).1 hyp⟩

/-! ## Image export: decimal numbers -/

theorem digit_char_not_space (d : Nat) (h : d < 10) : is_space (digit_char d) = false := by
  interval_cases d <;> decide

theorem digit_char_is_digit (d : Nat) (h : d < 10) :
    48 ≤ (digit_char d).toNat ∧ (digit_char d).toNat ≤ 57 := by
  interval_cases d <;> decide

theorem digit_value_digit_char (d : Nat) (h : d < 10) : digit_value (digit_char d) = d := by
  interval_cases d <;> decide

theorem decimal_ne_nil (n : Nat) : decimal n ≠ [] := by
  unfold decimal
  by_cases h : n = 0
  · simp [h]
  · rw [if_neg h]
    have hd : Nat.digits 10 n ≠ [] := Nat.digits_ne_nil_iff_ne_zero.mpr h
    simpa using hd

theorem decimal_digits (n : Nat) : ∀ c ∈ decimal n, ∃ d, d < 10 ∧ c = digit_char d := by
  intro c hc
  unfold decimal at hc
  by_cases h : n = 0
  · rw [if_pos h] at hc
    refine ⟨0, by decide, ?_⟩
    rw [List.mem_singleton.mp hc]
    rfl
  · rw [if_neg h] at hc
    obtain ⟨d, hd, rfl⟩ := List.mem_map.mp hc
    exact ⟨d, Nat.digits_lt_base (by decide) (List.mem_reverse.mp hd), rfl⟩

theorem decimal_no_space (n : Nat) : ∀ c ∈ decimal n, is_space c = false := by
  intro c hc
  obtain ⟨d, hd, rfl⟩ := decimal_digits n c hc
  exact digit_char_not_space d hd

theorem foldl_digits (ds : List Nat) (hds : ∀ d ∈ ds, d < 10) :
    (ds.reverse.map digit_char).foldl (fun acc c => 10 * acc + digit_value c) 0
      = Nat.ofDigits 10 ds := by
  induction ds with
  | nil => rfl
  | cons d tl ih =>
    have htl := ih (fun x hx => hds x (List.mem_cons_of_mem _ hx))
    rw [List.reverse_cons, List.map_append, List.foldl_append, htl, Nat.ofDigits_cons]
    simp only [List.map_cons, List.map_nil, List.foldl_cons, List.foldl_nil]
    rw [digit_value_digit_char d (hds d (List.mem_cons_self _ _))]
    simp [Nat.add_comm]

theorem parse_decimal_decimal (n : Nat) : parse_decimal (decimal n) = some n := by
  have hcond : decimal n ≠ [] ∧
      (decimal n).all (fun c => decide (48 ≤ c.toNat ∧ c.toNat ≤ 57)) = true := by
    refine ⟨decimal_ne_nil n, ?_⟩
    rw [List.all_eq_true]
    intro c hc
    obtain ⟨d, hd, rfl⟩ := decimal_digits n c hc
    exact decide_eq_true (digit_char_is_digit d hd)
  unfold parse_decimal
  rw [if_pos hcond]
  congr 1
  unfold decimal
  by_cases h : n = 0
  · rw [if_pos h, h]
    decide
  · rw [if_neg h, foldl_digits _ (fun d hd => Nat.digits_lt_base (by decide) hd)]
    exact Nat.ofDigits_digits 10 n

/-! ## Image export: tokens -/

theorem split_ws_aux_token (tok : List Char) (htok : ∀ c ∈ tok, is_space c = false) :
    ∀ (cur rest : List Char),
      split_ws_aux cur (tok ++ rest) = split_ws_aux (cur ++ tok) rest := by
  induction tok with
  | nil => intro cur rest; simp
  | cons c tl ih =>
    intro cur rest
    have hc : is_space c = false := htok c (List.mem_cons_self _ _)
    rw [List.cons_append, split_ws_aux]
    simp only [hc, Bool.false_eq_true, if_false]
    rw [ih (fun x hx => htok x (List.mem_cons_of_mem _ hx))]
    simp

theorem split_ws_aux_sep (tok : List Char) (hne : tok ≠ [])
    (htok : ∀ c ∈ tok, is_space c = false) (sep : Char) (hsep : is_space sep = true)
    (rest : List Char) :
    split_ws_aux [] (tok ++ sep :: rest) = tok :: split_ws_aux [] rest := by
  rw [split_ws_aux_token tok htok, List.nil_append, split_ws_aux]
  simp [hsep, hne]

theorem split_ws_aux_skip (sep : Char) (hsep : is_space sep = true) (rest : List Char) :
    split_ws_aux [] (sep :: rest) = split_ws_aux [] rest := by
  rw [split_ws_aux]
  simp [hsep]

theorem split_ws_aux_pixel (color : Color) (rest : List Char) :
    split_ws_aux []
      (decimal (channel color.x) ++ ' ' :: (decimal (channel color.y) ++ ' ' ::
        (decimal (channel color.z) ++ ' ' :: rest)))
      = triple_tokens color ++ split_ws_aux [] rest := by
  rw [split_ws_aux_sep _ (decimal_ne_nil _) (decimal_no_space _) ' ' (by decide),
    split_ws_aux_sep _ (decimal_ne_nil _) (decimal_no_space _) ' ' (by decide),
    split_ws_aux_sep _ (decimal_ne_nil _) (decimal_no_space _) ' ' (by decide)]
  rfl

theorem split_ws_save_pixels (width : Nat) (pixels : List Color) :
    ∀ i : Nat, split_ws_aux [] (save_pixels width i pixels)
      = (pixels.map triple_tokens).flatten := by
  induction pixels with
  | nil => intro i; rfl
  | cons color tl ih =>
    intro i
    rw [save_pixels, List.map_cons, List.flatten_cons]
    by_cases hi : i % width = 0
    · rw [if_pos hi, List.singleton_append, split_ws_aux_skip '\n' (by decide),
        split_ws_aux_pixel, ih]
    · rw [if_neg hi, List.nil_append, split_ws_aux_pixel, ih]

theorem split_ws_maxval (width : Nat) (pixels : List Color) :
    split_ws_aux [] (['2', '5', '5'] ++ save_pixels width 0 pixels)
      = ['2', '5', '5'] :: (pixels.map triple_tokens).flatten := by
  cases pixels with
  | nil =>
    rw [show save_pixels width 0 [] = [] from rfl]
    decide
  | cons color tl =>
    have h0 : save_pixels width 0 (color :: tl) =
        '\n' :: (decimal (channel color.x) ++ ' ' :: (decimal (channel color.y) ++ ' ' ::
          (decimal (channel color.z) ++ ' ' :: save_pixels width (0 + 1) tl))) := by
      rw [save_pixels, if_pos (Nat.zero_mod width)]
      rfl
    rw [h0, split_ws_aux_sep _ (by decide) (by decide) '\n' (by decide),
      split_ws_aux_pixel, split_ws_save_pixels, List.map_cons, List.flatten_cons]

theorem split_ws_save_to_file (s : Screen) :
    split_ws s.save_to_file =
      ['P', '3'] :: decimal s.width :: decimal s.height :: ['2', '5', '5']
        :: (s.pixels.map triple_tokens).flatten := by
  unfold split_ws Screen.save_to_file
  have hP3 : (['P', '3', '\n'] : List Char) ++ (decimal s.width ++ ' ' ::
      (decimal s.height ++ '\n' :: (['2', '5', '5'] ++ save_pixels s.width 0 s.pixels)))
      = ['P', '3'] ++ '\n' :: (decimal s.width ++ ' ' ::
      (decimal s.height ++ '\n' :: (['2', '5', '5'] ++ save_pixels s.width 0 s.pixels))) :=
    rfl
  rw [hP3, split_ws_aux_sep _ (by decide) (by decide) '\n' (by decide),
    split_ws_aux_sep _ (decimal_ne_nil _) (decimal_no_space _) ' ' (by decide),
    split_ws_aux_sep _ (decimal_ne_nil _) (decimal_no_space _) '\n' (by decide),
    split_ws_maxval]

theorem parse_triples_tokens (pixels : List Color) :
    parse_triples (pixels.map triple_tokens).flatten = some (pixels.map quantise) := by
  induction pixels with
  | nil => rfl
  | cons color tl ih =>
    have hshape : (List.map triple_tokens (color :: tl)).flatten =
        decimal (channel color.x) :: decimal (channel color.y) :: decimal (channel color.z)
          :: (List.map triple_tokens tl).flatten := rfl
    rw [hshape, parse_triples]
    simp only [parse_decimal_decimal, ih, List.map_cons, quantise]

theorem parse_ppm_save_to_file (s : Screen) :
    parse_ppm s.save_to_file =
      some (PPMImage.mk s.width s.height 255 (s.pixels.map quantise)) := by
  have h255 : parse_decimal ['2', '5', '5'] = some 255 := by decide
  unfold parse_ppm
  rw [split_ws_save_to_file]
  simp only [if_true, parse_decimal_decimal, h255, parse_triples_tokens]


/-! ## Image export: round trip -/

theorem channel_zero : channel 0 = 0 := by
  have h := channel_eq_floor 0 (le_refl 0)
  simp at h
  exact h

theorem channel_one : channel 1 = 255 := by
  have h := channel_eq_floor 1 (by norm_num)
  have hfl : ⌊(1 : ℚ) * (255999 / 1000)⌋ = 255 := by
    rw [Int.floor_eq_iff]
    constructor <;> norm_num
  rw [hfl] at h
  exact_mod_cast h

theorem channel_half : channel (1 / 2) = 127 := by
  have h := channel_eq_floor (1 / 2) (by norm_num)
  have hfl : ⌊(1 / 2 : ℚ) * (255999 / 1000)⌋ = 127 := by
    rw [Int.floor_eq_iff]
    constructor <;> norm_num
  rw [hfl] at h
  exact_mod_cast h

theorem set_pixel_in_range (s : Screen) (x y : Nat) (c : Color)
    (hs : s.sized) (hfit : s.width * s.height < UINT_RANGE)
    (hx : x < s.width) (hy : y < s.height) :
    y * s.width + x < s.pixels.length ∧
    s.set_pixel x y c =
      some (Screen.mk s.width s.height (s.pixels.set (y * s.width + x) c)) := by
  have hlen : s.pixels.length = s.width * s.height := by
    have h := hs
    unfold Screen.sized at h
    rw [h, Nat.mod_eq_of_lt hfit]
  have hidx := row_major_index_lt s.width s.height x y hx hy
  have hmod : (y * s.width + x) % UINT_RANGE = y * s.width + x :=
    Nat.mod_eq_of_lt (Nat.lt_trans hidx hfit)
  refine ⟨by rw [hlen]; exact hidx, ?_⟩
  unfold Screen.set_pixel
  simp only [hmod]
  rw [if_pos (by rw [hlen]; exact hidx)]

/-- C14 as stated fails when `width * height` does not fit `unsigned int`: the
screen built by `Screen(65536, 65536)` has `width > 0` and `height > 0`, and
the text of `Screen::save_to_file` splits into the four header tokens followed
by no pixel triple at all, not by `65536 * 65536` of them. -/
theorem save_to_file_wraps :
    (0 < (Screen.create 65536 65536).width ∧ 0 < (Screen.create 65536 65536).height) ∧
    split_ws (Screen.create 65536 65536).save_to_file =
      [['P', '3'], ['6', '5', '5', '3', '6'], ['6', '5', '5', '3', '6'], ['2', '5', '5']] ∧
    parse_ppm (Screen.create 65536 65536).save_to_file =
      some (PPMImage.mk 65536 65536 255 []) ∧
    (Screen.create 65536 65536).width * (Screen.create 65536 65536).height = 4294967296 := by
  have hpix : (Screen.create 65536 65536).pixels = [] := by
    norm_num [Screen.create, UINT_RANGE]
  have hdec : decimal 65536 = ['6', '5', '5', '3', '6'] := by
    norm_num [decimal, digit_char]
  refine ⟨⟨by norm_num [Screen.create], by norm_num [Screen.create]⟩, ?_, ?_, ?_⟩
  · rw [split_ws_save_to_file, hpix]
    simp only [Screen.create, hdec, List.map_nil, List.flatten_nil]
  · rw [parse_ppm_save_to_file, hpix]
    simp [Screen.create]
  · norm_num [Screen.create]

/-- C14, amended: for every screen with `width > 0` and `height > 0` whose
product `width * height` fits `unsigned int` (is below `2^32`) and whose pixels
have components in `[0, 1]`, the text of `Screen::save_to_file`, split on
whitespace, is the token `P3`, then the width, the height and `255`, followed
by exactly `width * height` pixel triples in the order of the framebuffer;
re-parsing it recovers the width, the height, and as triple number
`y * width + x` the channel values `floor(c * 255.999)` of the pixel at
`(x, y)`; a colour written by `Screen::set_pixel(x, y, c)` is recovered at
that position. -/
theorem save_to_file_round_trip (s : Screen) (hs : s.sized)
    (hfit : s.width * s.height < UINT_RANGE) (hw : 0 < s.width) (hh : 0 < s.height)
    (hvalid : ∀ p ∈ s.pixels, Color.valid p) :
    split_ws s.save_to_file =
      ['P', '3'] :: decimal s.width :: decimal s.height :: ['2', '5', '5']
        :: (s.pixels.map triple_tokens).flatten ∧
    parse_ppm s.save_to_file =
      some (PPMImage.mk s.width s.height 255 (s.pixels.map quantise)) ∧
    (s.pixels.map quantise).length = s.width * s.height ∧
    (∀ x y, x < s.width → y < s.height →
      ∃ p, s.pixels[y * s.width + x]? = some p ∧
        (s.pixels.map quantise)[y * s.width + x]? = some (quantise p) ∧
        ((quantise p).1 : ℤ) = ⌊p.x * (255999 / 1000)⌋ ∧
        ((quantise p).2.1 : ℤ) = ⌊p.y * (255999 / 1000)⌋ ∧
        ((quantise p).2.2 : ℤ) = ⌊p.z * (255999 / 1000)⌋ ∧
        (quantise p).1 ≤ 255 ∧ (quantise p).2.1 ≤ 255 ∧ (quantise p).2.2 ≤ 255) ∧
    (∀ x y c, x < s.width → y < s.height →
      ∃ s', s.set_pixel x y c = some s' ∧
        parse_ppm s'.save_to_file =
          some (PPMImage.mk s.width s.height 255 (s'.pixels.map quantise)) ∧
        (s'.pixels.map quantise)[y * s.width + x]? = some (quantise c)) := by
  have _ := hw
  have _ := hh
  have hlen : s.pixels.length = s.width * s.height := by
    have h := hs
    unfold Screen.sized at h
    rw [h, Nat.mod_eq_of_lt hfit]
  refine ⟨split_ws_save_to_file s, parse_ppm_save_to_file s, ?_, ?_, ?_⟩
  · rw [List.length_map, hlen]
  · intro x y hx hy
    have hidx : y * s.width + x < s.pixels.length := by
      rw [hlen]
      exact row_major_index_lt s.width s.height x y hx hy
    have hp : s.pixels[y * s.width + x]? = some (s.pixels[y * s.width + x]) :=
      List.getElem?_eq_getElem hidx
    have hval := hvalid _ (List.getElem_mem hidx)
    refine ⟨s.pixels[y * s.width + x], hp, ?_, ?_, ?_, ?_, ?_, ?_, ?_⟩
    · rw [List.getElem?_map, hp]
      rfl
    · exact channel_eq_floor _ hval.1.1
    · exact channel_eq_floor _ hval.2.1.1
    · exact channel_eq_floor _ hval.2.2.1
    · exact channel_le _ hval.1.1 hval.1.2
    · exact channel_le _ hval.2.1.1 hval.2.1.2
    · exact channel_le _ hval.2.2.1 hval.2.2.2
  · intro x y c hx hy
    obtain ⟨hidx, hset⟩ := set_pixel_in_range s x y c hs hfit hx hy
    refine ⟨_, hset, parse_ppm_save_to_file _, ?_⟩
    rw [List.getElem?_map, List.getElem?_set_self hidx]
    rfl

/-- Witness of C14 (amended) on `sampleScreen`: the text is
`P3`, `2 1`, `255`, then `255 255 255 127 0 255`. -/
theorem save_to_file_round_trip_witness :
    (sampleScreen.sized ∧ sampleScreen.width * sampleScreen.height < UINT_RANGE ∧
      0 < sampleScreen.width ∧ 0 < sampleScreen.height ∧
      ∀ p ∈ sampleScreen.pixels, Color.valid p) ∧
    sampleScreen.save_to_file =
      ['P', '3', '\n', '2', ' ', '1', '\n', '2', '5', '5', '\n',
        '2', '5', '5', ' ', '2', '5', '5', ' ', '2', '5', '5', ' ',
        '1', '2', '7', ' ', '0', ' ', '2', '5', '5', ' '] ∧
    parse_ppm sampleScreen.save_to_file =
      some (PPMImage.mk 2 1 255 [(255, 255, 255), (127, 0, 255)]) := by
  have h1 : sampleScreen.sized := by
    norm_num [Screen.sized, sampleScreen, UINT_RANGE]
  have h2 : sampleScreen.width * sampleScreen.height < UINT_RANGE := by
    norm_num [sampleScreen, UINT_RANGE]
  have h3 : 0 < sampleScreen.width := by norm_num [sampleScreen]
  have h4 : 0 < sampleScreen.height := by norm_num [sampleScreen]
  have h5 : ∀ p ∈ sampleScreen.pixels, Color.valid p := by
    norm_num [sampleScreen, Color.valid, white]
  have h := save_to_file_round_trip sampleScreen h1 h2 h3 h4 h5
  refine ⟨⟨h1, h2, h3, h4, h5⟩, ?_, ?_⟩
  · norm_num [Screen.save_to_file, save_pixels, sampleScreen, white, channel_one,
      channel_half, channel_zero, decimal, digit_char]
  · rw [h.2.1]
    norm_num [sampleScreen, quantise, white, channel_one, channel_half, channel_zero]


/-! ## Single precision against the exact statements -/

theorem l1Normalize_le_one (v : Vector3df) : (l1Normalize v * l1Normalize v : ℚ) ≤ 1 := by
  unfold l1Normalize
  have hx := abs_nonneg v.x
  have hy := abs_nonneg v.y
  have hz := abs_nonneg v.z
  by_cases h : |v.x| + |v.y| + |v.z| = 0
  · rw [if_pos h]
    have hx0 : v.x = 0 := abs_eq_zero.mp (by linarith)
    have hy0 : v.y = 0 := abs_eq_zero.mp (by linarith)
    have hz0 : v.z = 0 := abs_eq_zero.mp (by linarith)
    simp [Vector3df.dot_def, hx0, hy0, hz0]
  · rw [if_neg h]
    have hs : 0 < |v.x| + |v.y| + |v.z| :=
      lt_of_le_of_ne (by linarith) (Ne.symm h)
    have key : v.x * v.x + v.y * v.y + v.z * v.z
        ≤ (|v.x| + |v.y| + |v.z|) * (|v.x| + |v.y| + |v.z|) := by
      nlinarith [abs_mul_abs_self v.x, abs_mul_abs_self v.y, abs_mul_abs_self v.z,
        mul_nonneg hx hy, mul_nonneg hx hz, mul_nonneg hy hz]
    simp only [Vector3df.dot_def, Vector3df.smul_def]
    have heq : 1 / (|v.x| + |v.y| + |v.z|) * v.x * (1 / (|v.x| + |v.y| + |v.z|) * v.x)
        + 1 / (|v.x| + |v.y| + |v.z|) * v.y * (1 / (|v.x| + |v.y| + |v.z|) * v.y)
        + 1 / (|v.x| + |v.y| + |v.z|) * v.z * (1 / (|v.x| + |v.y| + |v.z|) * v.z)
        = (v.x * v.x + v.y * v.y + v.z * v.z)
          / ((|v.x| + |v.y| + |v.z|) * (|v.x| + |v.y| + |v.z|)) := by
      field_simp
    rw [heq]
    exact div_le_one_of_le₀ key (le_of_lt (mul_pos hs hs))

/-- C12 as stated fails on the camera of `main` (800 by 600 pixels, focal length
1.5, viewport height 3) at pixel `(400, 300)`: in single precision
`Camera::get_ray` returns the direction `(5243/2097152, -5243/2097152, -3/2)`,
which is neither the stated `(1/400, -1/400, -3/2)` nor its nearest
single-precision value. -/
theorem get_ray_float_main_camera :
    ((Camera.create_float (Screen.create 800 600) (3 / 2) 3).get_ray_float 400 300).direction
      = Vector3df.mk (5243 / 2097152) (-(5243 / 2097152)) (-(3 / 2)) ∧
    (3 * (800 : ℚ) / 600 * (((400 : ℚ) + 1 / 2) / 800 - 1 / 2) = 1 / 400 ∧
      3 * (1 / 2 - ((300 : ℚ) + 1 / 2) / 600) = -(1 / 400)) ∧
    (5243 / 2097152 : ℚ) ≠ 1 / 400 ∧
    (5243 / 2097152 : ℚ) ≠ to_float (1 / 400) := by
  decide!

/-- C17 as stated fails in single precision: for the hit on a matte white
sphere with `k_diffuse = 0.9f`, a unit normal and three visible lights straight
above the hit point, `lambertian` computes the normalised diffuse term
`15099495/16777216`, which is larger than `k_diffuse = 15099494/16777216`. -/
theorem lambertian_float_diffuse_exceeds :
    ((floatMatteHit (to_float (9 / 10))).intersection_context.normal
        * (floatMatteHit (to_float (9 / 10))).intersection_context.normal : ℚ) = 1 ∧
    (floatMatteHit (to_float (9 / 10))).object.material.k_diffuse = 15099494 / 16777216 ∧
    (0 ≤ (floatMatteHit (to_float (9 / 10))).object.material.k_diffuse ∧
      (floatMatteHit (to_float (9 / 10))).object.material.k_diffuse ≤ 1) ∧
    (floatMatteHit (to_float (9 / 10))).object.material.k_ambient
      = 1 - (floatMatteHit (to_float (9 / 10))).object.material.k_diffuse ∧
    axisLights 3 ≠ [] ∧
    find_light_sources_float axisGeometry (floatMatteScene (to_float (9 / 10))) (axisLights 3)
        (floatMatteHit (to_float (9 / 10))).intersection_context = axisLights 3 ∧
    diffuse_factor_float axisGeometry (floatMatteScene (to_float (9 / 10))) (axisLights 3)
        (floatMatteHit (to_float (9 / 10))) = 15099495 / 16777216 ∧
    (floatMatteHit (to_float (9 / 10))).object.material.k_diffuse
      < diffuse_factor_float axisGeometry (floatMatteScene (to_float (9 / 10))) (axisLights 3)
        (floatMatteHit (to_float (9 / 10))) := by
  decide!

/-- C19 as stated fails in single precision: on a matte white sphere with
`k_diffuse = 0.99f` lit by fifteen visible lights straight above the hit point,
`tracin_them_rays` returns the colour with all components `8388609/8388608`,
larger than 1. -/
theorem tracin_them_rays_float_exceeds :
    (∀ o ∈ (floatMatteScene (to_float (99 / 100))).objects,
      Color.valid o.material.color ∧ 0 ≤ o.material.k_diffuse ∧
        o.material.k_diffuse ≤ 1 ∧
        o.material.k_ambient = 1 - o.material.k_diffuse) ∧
    (∀ o ∈ (floatMatteScene (to_float (99 / 100))).objects, ∀ ray c,
      axisGeometry.intersects o.sphere ray = some c → (c.normal * c.normal : ℚ) = 1) ∧
    axisLights 15 ≠ [] ∧
    (floatMatteScene (to_float (99 / 100))).find_nearest_object axisGeometry viewAxisRay
      = some (floatMatteHit (to_float (99 / 100))) ∧
    tracin_them_rays_float axisGeometry (floatMatteScene (to_float (99 / 100)))
        (axisLights 15) viewAxisRay 1
      = Vector3df.mk (8388609 / 8388608) (8388609 / 8388608) (8388609 / 8388608) ∧
    (1 : ℚ) < 8388609 / 8388608 := by
  refine ⟨?_, fun o _ ray c hc => (axisIntersects_spec o.sphere ray c hc).2.1,
    by decide!, by decide!, by decide!, by decide!⟩
  simp only [Color.valid]
  decide!


/-- Witness of C17 (amended). On the scene and lights of `raytracer.cc`, for the
hit of the view axis on the back wall, both lights are found visible and, with
the direction-preserving `l1Normalize`, the normalised diffuse term is `9/35`.
On `mixedScene` lit by `nearLight`, the light is visible, its direction is
exactly of unit length, and the term reaches `k_diffuse = 9/10`, the factor
`1`. -/
theorem lambertian_shading_bounds_witness :
    (((backWallHit.intersection_context.normal
          * backWallHit.intersection_context.normal : ℚ) = 1 ∧
        (∀ light ∈ lightsources,
          (l1Geometry.normalize (light - backWallHit.intersection_context.intersection)
            * l1Geometry.normalize (light - backWallHit.intersection_context.intersection)
              : ℚ) ≤ 1) ∧
        0 ≤ backWallHit.object.material.k_diffuse ∧
        backWallHit.object.material.k_diffuse ≤ 1 ∧
        backWallHit.object.material.k_ambient = 1 - backWallHit.object.material.k_diffuse ∧
        lightsources ≠ []) ∧
      find_light_sources l1Geometry scene lightsources backWallHit.intersection_context
        = lightsources ∧
      normalised_diffuse l1Geometry lightsources backWallHit lightsources = 9 / 35 ∧
      backWallHit.object.material.k_ambient ≤
        backWallHit.object.material.k_ambient + normalised_diffuse l1Geometry lightsources
          backWallHit
          (find_light_sources l1Geometry scene lightsources
            backWallHit.intersection_context) ∧
      backWallHit.object.material.k_ambient + normalised_diffuse l1Geometry lightsources
          backWallHit
          (find_light_sources l1Geometry scene lightsources
            backWallHit.intersection_context) ≤ 1) ∧
    (((greenHit.intersection_context.normal * greenHit.intersection_context.normal : ℚ) = 1 ∧
        (∀ light ∈ [nearLight],
          (axisGeometry.normalize (light - greenHit.intersection_context.intersection)
            * axisGeometry.normalize (light - greenHit.intersection_context.intersection)
              : ℚ) ≤ 1) ∧
        0 ≤ greenHit.object.material.k_diffuse ∧ greenHit.object.material.k_diffuse ≤ 1 ∧
        greenHit.object.material.k_ambient = 1 - greenHit.object.material.k_diffuse ∧
        [nearLight] ≠ []) ∧
      find_light_sources axisGeometry mixedScene [nearLight] greenHit.intersection_context
        = [nearLight] ∧
      (axisGeometry.normalize (nearLight - greenHit.intersection_context.intersection)
        * axisGeometry.normalize (nearLight - greenHit.intersection_context.intersection)
          : ℚ) = 1 ∧
      normalised_diffuse axisGeometry [nearLight] greenHit [nearLight] = 9 / 10 ∧
      lambertian axisGeometry mixedScene [nearLight] greenHit = Vector3df.mk 0 1 0 ∧
      greenHit.object.material.k_ambient + normalised_diffuse axisGeometry [nearLight]
          greenHit
          (find_light_sources axisGeometry mixedScene [nearLight]
            greenHit.intersection_context) ≤ 1) := by
  have a1 : (backWallHit.intersection_context.normal
      * backWallHit.intersection_context.normal : ℚ) = 1 := by decide!
  have a2 : ∀ light ∈ lightsources,
      (l1Geometry.normalize (light - backWallHit.intersection_context.intersection)
        * l1Geometry.normalize (light - backWallHit.intersection_context.intersection)
          : ℚ) ≤ 1 := by decide!
  have a3 : 0 ≤ backWallHit.object.material.k_diffuse := by decide!
  have a4 : backWallHit.object.material.k_diffuse ≤ 1 := by decide!
  have a5 : backWallHit.object.material.k_ambient
      = 1 - backWallHit.object.material.k_diffuse := by decide!
  have a6 : lightsources ≠ [] := by decide!
  have ha := lambertian_shading_bounds l1Geometry scene lightsources backWallHit
    a1 a2 a3 a4 a5 a6
  have b1 : (greenHit.intersection_context.normal
      * greenHit.intersection_context.normal : ℚ) = 1 := by decide!
  have b2 : ∀ light ∈ [nearLight],
      (axisGeometry.normalize (light - greenHit.intersection_context.intersection)
        * axisGeometry.normalize (light - greenHit.intersection_context.intersection)
          : ℚ) ≤ 1 := by decide!
  have b3 : 0 ≤ greenHit.object.material.k_diffuse := by decide!
  have b4 : greenHit.object.material.k_diffuse ≤ 1 := by decide!
  have b5 : greenHit.object.material.k_ambient
      = 1 - greenHit.object.material.k_diffuse := by decide!
  have b6 : [nearLight] ≠ [] := by decide!
  have hb := lambertian_shading_bounds axisGeometry mixedScene [nearLight] greenHit
    b1 b2 b3 b4 b5 b6
  exact ⟨⟨⟨a1, a2, a3, a4, a5, a6⟩, by decide!, by decide!, ha.2.2.2.1, ha.2.2.2.2⟩,
    ⟨⟨b1, b2, b3, b4, b5, b6⟩, by decide!, by decide!, by decide!, by decide!,
      hb.2.2.2.2⟩⟩

/-- Witness of C19 (amended) on the scene and lights of `raytracer.cc`, with
the direction-preserving `l1Normalize`: the ray along the view axis hits the
matte back wall, both lights are visible, and the colour is
`(5/14, 5/14, 5/14)`, the ambient term `1/10` plus the diffuse term `9/35`. -/
theorem tracin_them_rays_valid_witness :
    ((∀ o ∈ scene.objects, Color.valid o.material.color) ∧
      (∀ o ∈ scene.objects, 0 ≤ o.material.k_diffuse ∧ o.material.k_diffuse ≤ 1 ∧
        o.material.k_ambient = 1 - o.material.k_diffuse) ∧
      (∀ o ∈ scene.objects, ∀ ray c, l1Geometry.intersects o.sphere ray = some c →
        (c.normal * c.normal : ℚ) = 1) ∧
      (∀ o ∈ scene.objects, ∀ ray c, l1Geometry.intersects o.sphere ray = some c →
        ∀ light ∈ lightsources,
          (l1Geometry.normalize (light - c.intersection)
            * l1Geometry.normalize (light - c.intersection) : ℚ) ≤ 1) ∧
      lightsources ≠ []) ∧
    tracin_them_rays l1Geometry scene lightsources viewAxisRay 5
      = Vector3df.mk (5 / 14) (5 / 14) (5 / 14) ∧
    (((0 ≤ (tracin_them_rays l1Geometry scene lightsources viewAxisRay 5).x ∧
        (tracin_them_rays l1Geometry scene lightsources viewAxisRay 5).x ≤ 1) ∧
      (0 ≤ (tracin_them_rays l1Geometry scene lightsources viewAxisRay 5).y ∧
        (tracin_them_rays l1Geometry scene lightsources viewAxisRay 5).y ≤ 1) ∧
      (0 ≤ (tracin_them_rays l1Geometry scene lightsources viewAxisRay 5).z ∧
        (tracin_them_rays l1Geometry scene lightsources viewAxisRay 5).z ≤ 1)) ∧
    channel (tracin_them_rays l1Geometry scene lightsources viewAxisRay 5).x ≤ 255 ∧
    channel (tracin_them_rays l1Geometry scene lightsources viewAxisRay 5).y ≤ 255 ∧
    channel (tracin_them_rays l1Geometry scene lightsources viewAxisRay 5).z ≤ 255) := by
  have h1 : ∀ o ∈ scene.objects, Color.valid o.material.color := by
    simp only [Color.valid]
    decide!
  have h2 : ∀ o ∈ scene.objects, 0 ≤ o.material.k_diffuse ∧ o.material.k_diffuse ≤ 1 ∧
      o.material.k_ambient = 1 - o.material.k_diffuse := by decide!
  have h3 : ∀ o ∈ scene.objects, ∀ ray c,
      l1Geometry.intersects o.sphere ray = some c → (c.normal * c.normal : ℚ) = 1 :=
    fun o _ ray c hc => (axisIntersects_spec o.sphere ray c hc).2.1
  have h4 : ∀ o ∈ scene.objects, ∀ ray c,
      l1Geometry.intersects o.sphere ray = some c → ∀ light ∈ lightsources,
        (l1Geometry.normalize (light - c.intersection)
          * l1Geometry.normalize (light - c.intersection) : ℚ) ≤ 1 :=
    fun _ _ _ c _ light _ => l1Normalize_le_one (light - c.intersection)
  have h5 : lightsources ≠ [] := by decide!
  exact ⟨⟨h1, h2, h3, h4, h5⟩, by decide!,
    tracin_them_rays_valid l1Geometry scene lightsources h1 h2 h3 h4 h5 viewAxisRay 5⟩

end Raytracer
